import Mathlib

/-!
Verification of the particle-simulation core of the IgesAI/Particles repository.

The JavaScript sources are shallowly embedded here:
* `src/main.js` — the drift-mode update (`updateParticleEffects`), the galaxy
  physics update (`updateGalaxyPhysics`) and the galaxy structure generator
  (`createGalaxySystem` with its five sub-generators).
* `src/main.js.bak` — the emitter-cloud `ParticleCloud` class
  (`initParticle`, `update`, `setMouseMode`).

JavaScript numbers are idealised as real numbers, except that the single
non-finite value `NaN` (the only non-finite value the guarded code paths can
ever meet, and the one the `isNaN` sanitizers test for) is modelled explicitly
by the type `JVal` with an absorbing element `JVal.nan`.  External inputs
(`Math.random()` draws, `Date.now()`, pointer coordinates, audio bytes, the
camera unprojection of the pointer) are supplied by environment records, as
real numbers, matching the platform contract that they are always finite.
-/

open Classical

noncomputable section

/-! ## JavaScript numbers with an explicit NaN -/

/-- A JavaScript number: either a finite real or `NaN`. -/
inductive JVal : Type where
  | fin : ℝ → JVal
  | nan : JVal
deriving DecidableEq -- structural only when payloads are decidably equal; not used computationally

/-- `true` iff the value is finite (not `NaN`). -/
def JVal.isFin : JVal → Bool
  | .fin _ => true
  | .nan => false

/-- JS addition: `NaN` is absorbing. -/
def JVal.add : JVal → JVal → JVal
  | .fin a, .fin b => .fin (a + b)
  | _, _ => .nan

/-- JS subtraction: `NaN` is absorbing. -/
def JVal.sub : JVal → JVal → JVal
  | .fin a, .fin b => .fin (a - b)
  | _, _ => .nan

/-- JS multiplication: `NaN` is absorbing. -/
def JVal.mul : JVal → JVal → JVal
  | .fin a, .fin b => .fin (a * b)
  | _, _ => .nan

/-- JS division: `NaN` absorbing; division by zero is non-finite. -/
def JVal.div : JVal → JVal → JVal
  | .fin a, .fin b => if b = 0 then .nan else .fin (a / b)
  | _, _ => .nan

/-- `Math.sqrt`: `NaN` on `NaN` or negative input. -/
def JVal.sqrt : JVal → JVal
  | .fin a => if 0 ≤ a then .fin (Real.sqrt a) else .nan
  | .nan => .nan

/-- The JS comparison `v > c` against a finite constant: false when `v` is `NaN`. -/
def JVal.gtR : JVal → ℝ → Prop
  | .fin a, c => c < a
  | .nan, _ => False

/-- The sanitization step `if (isNaN(x)) x = 0`. -/
def JVal.san : JVal → JVal
  | .fin a => .fin a
  | .nan => .fin 0

/-- The JS expression `x || d` on numbers: `d` when `x` is falsy (`0` or `NaN`). -/
def JVal.falsyElse : JVal → JVal → JVal
  | .fin a, d => if a = 0 then d else .fin a
  | .nan, d => d

/-! ## Real 3-vectors (components of the particle attribute triples) -/

/-- A 3-vector of (finite) reals. -/
abbrev R3 : Type := ℝ × ℝ × ℝ

def add3 (u v : R3) : R3 := (u.1 + v.1, u.2.1 + v.2.1, u.2.2 + v.2.2)

def sub3 (u v : R3) : R3 := (u.1 - v.1, u.2.1 - v.2.1, u.2.2 - v.2.2)

def smul3 (k : ℝ) (v : R3) : R3 := (k * v.1, k * v.2.1, k * v.2.2)

def zero3 : R3 := (0, 0, 0)

def dot3 (u v : R3) : ℝ := u.1 * v.1 + u.2.1 * v.2.1 + u.2.2 * v.2.2

/-- Squared Euclidean length (`THREE.Vector3.lengthSq`). -/
def normSq3 (v : R3) : ℝ := v.1 * v.1 + v.2.1 * v.2.1 + v.2.2 * v.2.2

/-- Euclidean length (`THREE.Vector3.length`). -/
def norm3 (v : R3) : ℝ := Real.sqrt (normSq3 v)

/-- Euclidean distance (`THREE.Vector3.distanceTo`). -/
def dist3 (u v : R3) : ℝ := norm3 (sub3 u v)

/-- `THREE.Vector3.normalize`: `divideScalar(length || 1)`, so the zero vector
is left unchanged. -/
def normalize3 (v : R3) : R3 :=
  if norm3 v = 0 then v else smul3 (1 / norm3 v) v

/-! ## Galaxy population counts and generator index layout
(`createGalaxySystem`, `src/main.js` lines 1161–1199) -/

/-- `Math.floor(totalParticles * 0.1)` — core stars (10%). -/
def coreStarCount (N : ℕ) : ℕ := Nat.floor ((N : ℚ) * 0.1)

/-- `Math.floor(totalParticles * 0.5)` — spiral-arm stars (50%). -/
def armStarCount (N : ℕ) : ℕ := Nat.floor ((N : ℚ) * 0.5)

/-- `Math.floor(totalParticles * 0.2)` — halo stars (20%). -/
def haloStarCount (N : ℕ) : ℕ := Nat.floor ((N : ℚ) * 0.2)

/-- `Math.floor(totalParticles * 0.1)` — nebula particles (10%). -/
def nebulaParticleCount (N : ℕ) : ℕ := Nat.floor ((N : ℚ) * 0.1)

/-- `totalParticles - coreStarCount - armStarCount - haloStarCount -
nebulaParticleCount` — dust takes the remainder (JS subtraction, so an
integer that could in principle be negative). -/
def dustParticleCount (N : ℕ) : ℤ :=
  (N : ℤ) - coreStarCount N - armStarCount N - haloStarCount N - nebulaParticleCount N

/-- The write set of the four unconditional galaxy sub-generators
(`createGalaxyCore`, `createSpiralArms`, `createHaloStars`,
`createDustParticles`): each loops over `i < count` writing index
`startIndex + i` with no skip, covering `[startIndex, startIndex + count)`. -/
def genWrites (startIndex count : ℕ) : Finset ℕ := Finset.Ico startIndex (startIndex + count)

/-- `nebulaCount` of `createNebulaClouds` (`src/main.js` line 1423):
`Math.min(10, Math.floor(count / 100))`. -/
def nebulaCount (count : ℕ) : ℕ := min 10 (count / 100)

/-- The write set of `createNebulaClouds` (`src/main.js` lines 1476–1525):
iteration `i` writes index `startIndex + i` only when
`Math.floor(i / particlesPerNebula) < nebulaCount`, where
`particlesPerNebula = Math.floor(count / nebulaCount)`; otherwise the
`continue` at line 1481 skips it before any write.  When `nebulaCount = 0`
and `count > 0`, the JS division `count / 0` is `Infinity`, so
`nebulaIndex = Math.floor(i / Infinity) = 0 ≥ 0` and every iteration is
skipped; when `count = 0` the loop body never runs — in both cases the write
set is empty, as the `nebulaCount count ≠ 0` conjunct of the filter makes it
here. -/
def nebulaWrites (startIndex count : ℕ) : Finset ℕ :=
  Finset.image (fun i => startIndex + i)
    ((Finset.range count).filter fun i =>
      nebulaCount count ≠ 0 ∧ i / (count / nebulaCount count) < nebulaCount count)

/-- How many indices of its range `createNebulaClouds` actually writes: the
initial segment below `nebulaCount * particlesPerNebula`. -/
def nebulaWrittenCount (count : ℕ) : ℕ :=
  if nebulaCount count = 0 then 0 else nebulaCount count * (count / nebulaCount count)

/-- Each galaxy sub-generator returns `startIndex + count`, used by
`createGalaxySystem` as the next generator's `startIndex`. -/
def genReturn (startIndex count : ℕ) : ℕ := startIndex + count

/-- `createGalaxySystem` starts at `currentIndex = 0` with the core stars. -/
def coreStart (_ : ℕ) : ℕ := 0

def armStart (N : ℕ) : ℕ := genReturn (coreStart N) (coreStarCount N)

def haloStart (N : ℕ) : ℕ := genReturn (armStart N) (armStarCount N)

def nebulaStart (N : ℕ) : ℕ := genReturn (haloStart N) (haloStarCount N)

def dustStart (N : ℕ) : ℕ := genReturn (nebulaStart N) (nebulaParticleCount N)

/-! ## Triples of JS numbers (one particle's slice of a flat attribute array) -/

/-- One particle's three consecutive slots of a flat attribute array. -/
abbrev JV3 : Type := JVal × JVal × JVal

/-- Componentwise `+=` of finite (environment/config-derived) reals. -/
def JV3.addF (v : JV3) (w : R3) : JV3 :=
  (v.1.add (.fin w.1), v.2.1.add (.fin w.2.1), v.2.2.add (.fin w.2.2))

/-- Componentwise sanitization (`if (isNaN(x)) x = 0` on each slot). -/
def JV3.san (v : JV3) : JV3 := (v.1.san, v.2.1.san, v.2.2.san)

/-- All three slots are finite. -/
def JV3.AllFin (v : JV3) : Prop :=
  v.1.isFin = true ∧ v.2.1.isFin = true ∧ v.2.2.isFin = true

/-- Injection of a real vector as three finite slots. -/
def finV (w : R3) : JV3 := (.fin w.1, .fin w.2.1, .fin w.2.2)

/-- The guarded read `x || 0` used on position slots (always finite). -/
def JVal.orZero : JVal → ℝ
  | .fin a => a
  | .nan => 0

/-- The guarded read `masses[i] || 1` (always finite). -/
def JVal.orOne : JVal → ℝ
  | .fin a => if a = 0 then 1 else a
  | .nan => 1

/-- The `clamp` helper of `src/main.js` (line 556):
`Math.min(Math.max(value, min), max)` on finite inputs. -/
def clampR (value lo hi : ℝ) : ℝ := min (max value lo) hi

/-- The per-particle loop of the JS update functions: each iteration reads and
writes only the attributes of its own index. -/
def updAll {α : Type} (f : ℕ → α → α) : ℕ → List α → List α
  | _, [] => []
  | i, p :: rest => f i p :: updAll f (i + 1) rest

/-! ## Galaxy physics update (`updateGalaxyPhysics`, `src/main.js` lines 394–553) -/

/-- The `config.galaxySettings` fields read by `updateGalaxyPhysics`. -/
structure GalaxySettings where
  galaxyRadius : ℝ
  rotationFactor : ℝ
  enableGravity : Bool
  blackHoleMass : ℝ
  stabilityFactor : ℝ

/-- Per-frame inputs of `updateGalaxyPhysics`. `mousePosWorld` is the pointer's
projected world point (`mouseVector.unproject(camera)` plus the ray–depth
computation — camera glue abstracted as an external input). -/
structure GalaxyEnv where
  settings : GalaxySettings
  interactionStrength : ℝ
  mouseDown : Bool
  mousePosWorld : R3

/-- One galaxy particle: its slices of the seven attribute arrays. -/
structure GParticle where
  pos : JV3
  vel : JV3
  acc : JV3
  color : JV3
  size : JVal
  ptype : JVal
  mass : JVal

/-- The guarded position vector `new THREE.Vector3(positions[i3] || 0, ...)`. -/
def GParticle.posGuard (p : GParticle) : R3 :=
  (p.pos.1.orZero, p.pos.2.1.orZero, p.pos.2.2.orZero)

/-- The black-hole gravity contribution to a particle's acceleration
(`src/main.js` lines 436–454): force magnitude
`gravityConstant * blackHoleMass * mass / max(minDistance², distToCenter²)`
along the normalized direction to the origin, divided by `max(0.1, mass)`;
skipped entirely when the direction's squared length is not above `1e-6`. -/
def gravityAccelR (s : GalaxySettings) (mass : ℝ) (position : R3) : R3 :=
  let gravityConstant : ℝ := 0.01
  let minDistance : ℝ := 0.1
  let distToCenter : ℝ := dist3 position zero3
  let forceMagnitude : ℝ := gravityConstant * s.blackHoleMass * mass /
    max (minDistance * minDistance) (distToCenter * distToCenter)
  let forceDirection : R3 := sub3 zero3 position
  if 0.000001 < normSq3 forceDirection then
    smul3 (forceMagnitude / max 0.1 mass) (normalize3 forceDirection)
  else zero3

/-- The pointer-attraction contribution to a galaxy particle's acceleration
(`src/main.js` lines 456–488), active while the mouse is down. -/
def mouseAccelR (env : GalaxyEnv) (position : R3) : R3 :=
  let distToMouse : ℝ := dist3 position env.mousePosWorld
  if distToMouse < 10 then
    let forceDirection : R3 := sub3 env.mousePosWorld position
    if 0.000001 < normSq3 forceDirection then
      smul3 (0.01 * env.interactionStrength / max 0.1 distToMouse)
        (normalize3 forceDirection)
    else zero3
  else zero3

/-- The acceleration computed for one particle (reset to zero, then gravity
and mouse contributions). -/
def galaxyAccel (env : GalaxyEnv) (mass : ℝ) (position : R3) : R3 :=
  let acc0 := zero3
  let acc1 := if env.settings.enableGravity
    then add3 acc0 (gravityAccelR env.settings mass position) else acc0
  if env.mouseDown then add3 acc1 (mouseAccelR env position) else acc1

/-- The damped velocity of one particle: `v += clamp(a*dt, -0.1, 0.1)` then
`v *= stabilityFactor` (`src/main.js` lines 490–499). -/
def galaxyDampedVel (env : GalaxyEnv) (p : GParticle) : JV3 :=
  let dt : ℝ := 0.016
  let maxAccel : ℝ := 0.1
  let a := galaxyAccel env p.mass.orOne p.posGuard
  let v1 : JV3 :=
    (p.vel.1.add (.fin (clampR (a.1 * dt) (-maxAccel) maxAccel)),
     p.vel.2.1.add (.fin (clampR (a.2.1 * dt) (-maxAccel) maxAccel)),
     p.vel.2.2.add (.fin (clampR (a.2.2 * dt) (-maxAccel) maxAccel)))
  (v1.1.mul (.fin env.settings.stabilityFactor),
   v1.2.1.mul (.fin env.settings.stabilityFactor),
   v1.2.2.mul (.fin env.settings.stabilityFactor))

/-- The velocity cap (`src/main.js` lines 506–519): if
`sqrt(vx² + vy² + vz²) > 2.0`, rescale by `2.0 / currentVelocity`. -/
def capVelocity (v : JV3) : JV3 :=
  let maxVelocity : ℝ := 2
  let currentVelocity : JVal :=
    (((v.1.mul v.1).add (v.2.1.mul v.2.1)).add (v.2.2.mul v.2.2)).sqrt
  if currentVelocity.gtR maxVelocity then
    let scale := (JVal.fin maxVelocity).div currentVelocity
    (v.1.mul scale, v.2.1.mul scale, v.2.2.mul scale)
  else v

/-- The soft containment (`src/main.js` lines 521–532): beyond
`5 × galaxyRadius`, nudge velocity toward the origin by `0.01` along the
normalized pull direction. -/
def containVelocity (s : GalaxySettings) (distToCenter : ℝ) (position : R3) (v : JV3) : JV3 :=
  let maxRadius := s.galaxyRadius * 5
  if maxRadius < distToCenter then
    let pullFactor : ℝ := 0.01
    let pullDirection := sub3 zero3 position
    if 0.000001 < normSq3 pullDirection then
      JV3.addF v (smul3 pullFactor (normalize3 pullDirection))
    else v
  else v

/-- One iteration of the `updateGalaxyPhysics` particle loop
(`src/main.js` lines 416–546). -/
def galaxyStepParticle (env : GalaxyEnv) (p : GParticle) : GParticle :=
  let dt : ℝ := 0.016
  let position := p.posGuard
  let distToCenter := dist3 position zero3
  let a := galaxyAccel env p.mass.orOne position
  let v2 := galaxyDampedVel env p
  let pos1 : JV3 :=
    (p.pos.1.add (v2.1.mul (.fin dt)),
     p.pos.2.1.add (v2.2.1.mul (.fin dt)),
     p.pos.2.2.add (v2.2.2.mul (.fin dt)))
  let v3 := capVelocity v2
  let v4 := containVelocity env.settings distToCenter position v3
  { p with pos := JV3.san pos1, vel := JV3.san v4, acc := JV3.san (finV a) }

/-- `updateGalaxyPhysics`: the particle loop applied to every index. -/
def updateGalaxyPhysics (env : GalaxyEnv) (s : List GParticle) : List GParticle :=
  updAll (fun _ p => galaxyStepParticle env p) 0 s

/-! ## Drift-mode update (`updateParticleEffects`, `src/main.js` lines 279–392) -/

/-- The `config` fields read by `updateParticleEffects`. -/
structure DriftCfg where
  particleSize : ℝ
  speed : ℝ
  interactionStrength : ℝ
  audioReactivity : ℝ

/-- Per-frame external inputs of `updateParticleEffects`. `audioByte i` is
`dataArray[audioIndex]` for particle `i` (the analyser's byte data), `rnd i k`
the `k`-th `Math.random()` draw of iteration `i`, `now` is `Date.now()`. -/
structure DriftEnv where
  isAudioActive : Bool
  audioByte : ℕ → ℝ
  audioAverage : ℝ
  now : ℝ
  rnd : ℕ → ℕ → ℝ
  mouseX : ℝ
  mouseY : ℝ
  windowHalfX : ℝ
  windowHalfY : ℝ

/-- One drift-mode particle: its slices of the four attribute arrays built by
`createParticleSystem` (position, color, size, velocity). -/
structure DParticle where
  pos : JV3
  vel : JV3
  color : JV3
  size : JVal

/-- The containment clamp of `updateParticleEffects` (`src/main.js` lines
357–370): if `sqrt(x² + y² + z²) > 50`, rescale the position onto the sphere
of radius 50. -/
def clampPos (p : JV3) : JV3 :=
  let maxDist : ℝ := 50
  let dist : JVal := (((p.1.mul p.1).add (p.2.1.mul p.2.1)).add (p.2.2.mul p.2.2)).sqrt
  if dist.gtR maxDist then
    let scale := (JVal.fin maxDist).div dist
    (p.1.mul scale, p.2.1.mul scale, p.2.2.mul scale)
  else p

/-- The velocity pipeline of one `updateParticleEffects` iteration: audio
impulse, sine motion, mouse interaction, then the `0.98` damping
(`src/main.js` lines 316–350). -/
def driftVel (cfg : DriftCfg) (env : DriftEnv) (i : ℕ) (p : DParticle) : JV3 :=
  let audioFactor : ℝ := 1 + env.audioByte i / 128 * cfg.audioReactivity
  let audioImpulse : ℝ := audioFactor * cfg.audioReactivity * 0.03
  let vA : JV3 :=
    if env.isAudioActive then
      JV3.addF p.vel ((env.rnd i 0 - 0.5) * audioImpulse,
        (env.rnd i 1 - 0.5) * audioImpulse, (env.rnd i 2 - 0.5) * audioImpulse)
    else p.vel
  -- sine motion
  let vB := JV3.addF vA
    (Real.sin ((i : ℝ) + env.now * 0.001) * cfg.speed * 0.01,
     Real.cos ((i : ℝ) + env.now * 0.001) * cfg.speed * 0.01,
     Real.sin ((i : ℝ) + env.now * 0.001) * cfg.speed * 0.005)
  -- mouse interaction
  let mouseXOffset : ℝ := (env.mouseX - env.windowHalfX) / env.windowHalfX
  let mouseYOffset : ℝ := (env.mouseY - env.windowHalfY) / env.windowHalfY
  let vC : JV3 :=
    (vB.1.add (.fin (mouseXOffset * cfg.interactionStrength * 0.001)),
     vB.2.1.sub (.fin (mouseYOffset * cfg.interactionStrength * 0.001)),
     vB.2.2)
  -- damping
  (vC.1.mul (.fin 0.98), vC.2.1.mul (.fin 0.98), vC.2.2.mul (.fin 0.98))

/-- One iteration of the `updateParticleEffects` particle loop
(`src/main.js` lines 303–381). -/
def driftStepParticle (cfg : DriftCfg) (env : DriftEnv) (i : ℕ) (p : DParticle) : DParticle :=
  -- audio reactivity size/color effects (or the size reset of the no-audio branch)
  let audioFactor : ℝ := 1 + env.audioByte i / 128 * cfg.audioReactivity
  let size1 : JVal :=
    if env.isAudioActive then .fin (cfg.particleSize * (0.5 + audioFactor))
    else .fin (cfg.particleSize * (0.8 + env.rnd i 3 * 0.4))
  let pulseAmount : ℝ := Real.sin (env.now * 0.001 * env.audioAverage * 0.01) * 0.3 + 0.7
  let color1 : JV3 :=
    if env.isAudioActive ∧ i % 5 = 0 then
      (p.color.1.mul (.fin pulseAmount), p.color.2.1.mul (.fin pulseAmount),
       p.color.2.2.mul (.fin pulseAmount))
    else p.color
  let vD : JV3 := driftVel cfg env i p
  -- apply velocities to positions (note: no frame delta in this function)
  let pos1 : JV3 := (p.pos.1.add vD.1, p.pos.2.1.add vD.2.1, p.pos.2.2.add vD.2.2)
  let pos2 := clampPos pos1
  { pos := JV3.san pos2, vel := JV3.san vD, color := color1, size := size1 }

/-- `updateParticleEffects`: the particle loop applied to every index. -/
def updateParticleEffects (cfg : DriftCfg) (env : DriftEnv) (s : List DParticle) :
    List DParticle :=
  updAll (driftStepParticle cfg env) 0 s

/-! ## Sequences of per-frame updates (`animate` dispatches one update per
frame according to `config.mode`) -/

/-- A sequence of drift-mode frames, each with its own config/inputs. -/
def driftRun : List (DriftCfg × DriftEnv) → List DParticle → List DParticle
  | [], s => s
  | (cfg, env) :: rest, s => driftRun rest (updateParticleEffects cfg env s)

/-- A sequence of galaxy-mode frames. -/
def galaxyRun : List GalaxyEnv → List GParticle → List GParticle
  | [], s => s
  | env :: rest, s => galaxyRun rest (updateGalaxyPhysics env s)

/-- Finiteness of every attribute of a drift particle. -/
def DParticle.AllFin (p : DParticle) : Prop :=
  p.pos.AllFin ∧ p.vel.AllFin ∧ p.color.AllFin ∧ p.size.isFin = true

/-- Finiteness of every numeric attribute of a galaxy particle that
`updateGalaxyPhysics` is responsible for (position, velocity, acceleration,
color, size). -/
def GParticle.AllFin (p : GParticle) : Prop :=
  p.pos.AllFin ∧ p.vel.AllFin ∧ p.acc.AllFin ∧ p.color.AllFin ∧ p.size.isFin = true

/-- Concrete drift config (the `config` defaults of `src/main.js`). -/
def sampleDriftCfg : DriftCfg := ⟨0.1, 0.01, 0.5, 0.5⟩

/-- Concrete drift inputs: audio off, centered pointer. -/
def sampleDriftEnv : DriftEnv := ⟨false, fun _ => 0, 0, 0, fun _ _ => 0, 1, 1, 1, 1⟩

/-- A concrete drift particle with finite attributes. -/
def sampleDParticle : DParticle := ⟨finV (0, 0, 0), finV (0, 0, 0), finV (1, 1, 1), .fin 0.1⟩

/-- The `config.galaxySettings` defaults of `src/main.js`. -/
def sampleGalaxySettings : GalaxySettings := ⟨25, 0.5, true, 1000, 0.98⟩

/-- Concrete galaxy inputs: default settings, mouse up. -/
def sampleGalaxyEnv : GalaxyEnv := ⟨sampleGalaxySettings, 0.5, false, (0, 0, 0)⟩

/-- A concrete galaxy particle with finite attributes. -/
def sampleGParticle : GParticle :=
  ⟨finV (1, 2, 3), finV (0, 0, 0), finV (0, 0, 0), finV (1, 1, 1), .fin 0.1, .fin 0, .fin 1⟩

/-- Galaxy inputs used to exercise the velocity cap: massless black hole,
no damping (`stabilityFactor = 1`), gravity on, mouse up. -/
def capExEnv : GalaxyEnv := ⟨⟨25, 0.5, true, 0, 1⟩, 0.5, false, (0, 0, 0)⟩

/-- A far-out, fast galaxy particle (distance 200 from the origin, speed 10
toward it). -/
def capExParticle : GParticle :=
  ⟨finV (200, 0, 0), finV (-10, 0, 0), finV (0, 0, 0), finV (1, 1, 1), .fin 0.1, .fin 0, .fin 1⟩

/-- A drift particle forcibly placed at distance 1000 from the origin. -/
def farDParticle : DParticle := ⟨finV (1000, 0, 0), finV (0, 0, 0), finV (1, 1, 1), .fin 0.1⟩

/-! ## The emitter-cloud `ParticleCloud` (`src/main.js.bak` lines 164–560) -/

/-- The `ParticleCloud` options fields used by the simulation
(constructor defaults, `src/main.js.bak` lines 166–180). -/
structure PCOpts where
  count : ℕ
  particleSize : ℝ
  particleSizeVariation : ℝ
  baseColor : R3
  secondaryColor : R3
  tertiaryColor : R3
  speedFactor : ℝ
  noiseIntensity : ℝ
  noiseTimeScale : ℝ
  particleLifespan : ℝ
  turbulence : ℝ
  interactiveForce : ℝ

/-- One orbiting emitter (`createEmitters`, lines 306–324). -/
structure Emitter where
  position : R3
  radius : ℝ
  power : ℝ
  angle : ℝ

/-- The `ParticleCloud` state: options, clock, emitters and the flat attribute
arrays (`positions`/`velocities`/`accelerations`/`colors` of length
`3·count`, `sizes`/`lifeTimes`/`startTimes`/`opacities` of length `count`). -/
structure PC where
  opts : PCOpts
  time : ℝ
  emitters : List Emitter
  positions : List ℝ
  velocities : List ℝ
  accelerations : List ℝ
  colors : List ℝ
  sizes : List ℝ
  lifeTimes : List ℝ
  startTimes : List ℝ
  opacities : List ℝ

/-- `THREE.Color().lerpColors(c1, c2, t)`: componentwise `c1 + (c2 - c1) * t`. -/
def lerpColors (c1 c2 : R3) (t : ℝ) : R3 :=
  (c1.1 + (c2.1 - c1.1) * t,
   c1.2.1 + (c2.2.1 - c1.2.1) * t,
   c1.2.2 + (c2.2.2 - c1.2.2) * t)

/-- Placeholder emitter for the (unreachable) out-of-range list read. -/
def dummyEmitter : Emitter := ⟨zero3, 0, 0, 0⟩

/-- `ParticleCloud.initParticle(i, fromEmitter)` (`src/main.js.bak` lines
326–409).  `rnd k` is the `k`-th `Math.random()` draw of this call.  Writes
only the attribute slots of index `i` (`List.set` leaves the arrays' lengths
unchanged and ignores out-of-range indices, like a `Float32Array` store). -/
def initParticle (rnd : ℕ → ℝ) (pc : PC) (i : ℕ) (fromEmitter : ℤ) : PC :=
  let idx := 3 * i
  let pvc : R3 × R3 × R3 :=
    if 0 ≤ fromEmitter ∧ fromEmitter < (pc.emitters.length : ℤ) then
      let emitter := pc.emitters.getD fromEmitter.toNat dummyEmitter
      let radius := rnd 0 * 1.5
      let theta := rnd 1 * (2 * Real.pi)
      let phi := rnd 2 * (2 * Real.pi)
      let px := emitter.position.1 + radius * Real.sin phi * Real.cos theta
      let py := emitter.position.2.1 + radius * Real.sin phi * Real.sin theta
      let pz := emitter.position.2.2 + radius * Real.cos phi
      let speed := 0.5 + rnd 3 * emitter.power
      let dir := normalize3
        (px - emitter.position.1, py - emitter.position.2.1, pz - emitter.position.2.2)
      -- `this.colors` is the flat `Float32Array` at this point, so its
      -- `length` is `3 * count`
      let colorIndex := fromEmitter.toNat % (3 * pc.opts.count)
      let cchoice := if colorIndex % 2 = 0 then pc.opts.secondaryColor else pc.opts.tertiaryColor
      ((px, py, pz), smul3 speed dir, lerpColors pc.opts.baseColor cchoice (rnd 4))
    else
      let radius := 5 + rnd 0 * 15
      let theta := rnd 1 * (2 * Real.pi)
      let phi := rnd 2 * (2 * Real.pi)
      let px := radius * Real.sin phi * Real.cos theta
      let py := radius * Real.sin phi * Real.sin theta
      let pz := radius * Real.cos phi
      let vel : R3 := ((rnd 3 - 0.5) * 0.3, (rnd 4 - 0.5) * 0.3, (rnd 5 - 0.5) * 0.3)
      let colorFactor := rnd 6
      let col :=
        if colorFactor < 0.33 then lerpColors pc.opts.baseColor pc.opts.secondaryColor (rnd 7)
        else if colorFactor < 0.66 then
          lerpColors pc.opts.secondaryColor pc.opts.tertiaryColor (rnd 7)
        else lerpColors pc.opts.tertiaryColor pc.opts.baseColor (rnd 7)
      ((px, py, pz), vel, col)
  { pc with
    positions :=
      ((pc.positions.set idx pvc.1.1).set (idx + 1) pvc.1.2.1).set (idx + 2) pvc.1.2.2,
    velocities :=
      ((pc.velocities.set idx pvc.2.1.1).set (idx + 1) pvc.2.1.2.1).set (idx + 2) pvc.2.1.2.2,
    accelerations :=
      ((pc.accelerations.set idx 0).set (idx + 1) 0).set (idx + 2) 0,
    colors :=
      ((pc.colors.set idx pvc.2.2.1).set (idx + 1) pvc.2.2.2.1).set (idx + 2) pvc.2.2.2.2,
    sizes := pc.sizes.set i
      (pc.opts.particleSize + (rnd 8 - 0.5) * pc.opts.particleSizeVariation),
    lifeTimes := pc.lifeTimes.set i (pc.opts.particleLifespan * (0.6 + rnd 9 * 0.4)),
    startTimes := pc.startTimes.set i
      (if 0 ≤ fromEmitter then pc.time else pc.time - rnd 10 * pc.opts.particleLifespan),
    opacities := pc.opacities.set i (0.8 + rnd 11 * 0.2) }

/-- `ParticleCloud.noise(x, y, z)` (`src/main.js.bak` line 525). -/
def pcNoise (opts : PCOpts) (time x y z : ℝ) : ℝ :=
  Real.sin (x * 10 + time) * Real.cos (y * 8 - time) * Real.sin (z * 5 + time * 0.5) *
    opts.noiseIntensity

/-- The pointer-interaction velocity contribution of `ParticleCloud.update`
(`src/main.js.bak` lines 467–488): within the camera-scaled influence radius,
a push of magnitude `(influenceRadius - distance) * interactiveForce * delta`
along the direction from the particle to the pointer's projected world
point. -/
def mouseForce (opts : PCOpts) (delta cameraZ : ℝ) (mouseTarget particlePos : R3) : R3 :=
  let toMouse := sub3 mouseTarget particlePos
  let distance := norm3 toMouse
  let influenceRadius := 20 * (cameraZ / 30)
  if distance < influenceRadius then
    let force := influenceRadius - distance
    smul3 (force * opts.interactiveForce * delta) (normalize3 toMouse)
  else zero3

/-- The position integration of `ParticleCloud.update` (`src/main.js.bak`
lines 495–498): `p += v * delta * speedFactor`. -/
def pcIntegratePos (delta speedFactor : ℝ) (p v : R3) : R3 :=
  (p.1 + v.1 * delta * speedFactor,
   p.2.1 + v.2.1 * delta * speedFactor,
   p.2.2 + v.2.2 * delta * speedFactor)

/-- Per-frame external inputs of `ParticleCloud.update`: pointer state, the
pointer's unprojected world target, camera depth, audio state (the shader
uniform's value), and the `Math.random()` draws (per particle: the emitter
choice and the `initParticle` draws). -/
structure PCEnv where
  mouseDown : Bool
  isContinuousMode : Bool
  mouseTarget : R3
  cameraZ : ℝ
  audioConnected : Bool
  audioLevel : ℝ
  rndEmitter : ℕ → ℝ
  rndInit : ℕ → ℕ → ℝ

/-- The per-emitter motion of `ParticleCloud.update` (`src/main.js.bak` lines
424–431). -/
def emitterStep (delta : ℝ) (i : ℕ) (em : Emitter) : Emitter :=
  let angle := em.angle + delta * 0.2 * (if i % 2 = 0 then 1 else -1)
  { em with
    angle := angle
    position := (15 * Real.cos angle, 8 * Real.sin angle, 5 * Real.sin (angle * 2)) }

/-- One iteration of the `ParticleCloud.update` particle loop
(`src/main.js.bak` lines 436–512): recycle the particle from a random emitter
when its age has reached its lifetime, otherwise integrate forces and update
size/opacity.  Runs on the state whose clock and emitters were already
advanced. -/
def pcLoopBody (env : PCEnv) (delta : ℝ) (i : ℕ) (pc : PC) : PC :=
  let idx := 3 * i
  let age := pc.time - pc.startTimes.getD i 0
  if age ≥ pc.lifeTimes.getD i 0 then
    let emitterIndex : ℤ := ⌊env.rndEmitter i * (pc.emitters.length : ℝ)⌋
    initParticle (env.rndInit i) pc i emitterIndex
  else
    let lifeFactor := 1 - age / pc.lifeTimes.getD i 0
    let px := pc.positions.getD idx 0
    let py := pc.positions.getD (idx + 1) 0
    let pz := pc.positions.getD (idx + 2) 0
    let v0 : R3 :=
      (pc.velocities.getD idx 0 + pc.accelerations.getD idx 0 * delta,
       pc.velocities.getD (idx + 1) 0 + pc.accelerations.getD (idx + 1) 0 * delta,
       pc.velocities.getD (idx + 2) 0 + pc.accelerations.getD (idx + 2) 0 * delta)
    let noiseX := pcNoise pc.opts pc.time (px * 0.1) (py * 0.1)
      (pc.time * pc.opts.noiseTimeScale) * pc.opts.turbulence
    let noiseY := pcNoise pc.opts pc.time (py * 0.1) (pz * 0.1)
      (pc.time * pc.opts.noiseTimeScale) * pc.opts.turbulence
    let noiseZ := pcNoise pc.opts pc.time (pz * 0.1) (px * 0.1)
      (pc.time * pc.opts.noiseTimeScale) * pc.opts.turbulence
    let v1 : R3 := (v0.1 + noiseX * delta, v0.2.1 + noiseY * delta, v0.2.2 + noiseZ * delta)
    let v2 : R3 :=
      if env.mouseDown = true ∨ env.isContinuousMode = true then
        add3 v1 (mouseForce pc.opts delta env.cameraZ env.mouseTarget (px, py, pz))
      else v1
    let v3 : R3 := (v2.1 * 0.99, v2.2.1 * 0.99, v2.2.2 * 0.99)
    let pos1 := pcIntegratePos delta pc.opts.speedFactor (px, py, pz) v3
    let size1 : ℝ :=
      if env.audioConnected then
        (pc.opts.particleSize + Real.sin (age * 2) * 0.03) * lifeFactor *
          (1 + env.audioLevel * 0.5)
      else (pc.opts.particleSize + Real.sin (age * 2) * 0.03) * lifeFactor
    { pc with
      positions :=
        ((pc.positions.set idx pos1.1).set (idx + 1) pos1.2.1).set (idx + 2) pos1.2.2,
      velocities :=
        ((pc.velocities.set idx v3.1).set (idx + 1) v3.2.1).set (idx + 2) v3.2.2,
      sizes := pc.sizes.set i size1,
      opacities :=
        if lifeFactor < 0.3 then pc.opacities.set i (lifeFactor / 0.3) else pc.opacities }

/-- `ParticleCloud.update(delta)` (`src/main.js.bak` lines 411–522): advance
the clock, move the emitters, then run the particle loop over all indices. -/
def pcUpdate (env : PCEnv) (delta : ℝ) (pc : PC) : PC :=
  let pc1 := { pc with
    time := pc.time + delta
    emitters := updAll (emitterStep delta) 0 pc.emitters }
  (List.range pc.opts.count).foldl (fun s i => pcLoopBody env delta i s) pc1

/-- `ParticleCloud.setMouseMode(isAttractMode)` (`src/main.js.bak` lines
552–554): sets `interactiveForce` to `0.1` (attract) or `-0.1` (repel) and
changes nothing else. -/
def setMouseMode (pc : PC) (isAttractMode : Bool) : PC :=
  { pc with opts :=
    { pc.opts with interactiveForce := if isAttractMode then 0.1 else -0.1 } }

/-- A drift config with `speed = 0` and `interactionStrength = 0` (both live
slider values), isolating the integration step. -/
def c5Cfg : DriftCfg := ⟨0.1, 0, 0, 0.5⟩

/-- A drift particle at the origin with velocity `(1, 0, 0)`. -/
def c5Particle : DParticle := ⟨finV (0, 0, 0), finV (1, 0, 0), finV (1, 1, 1), .fin 0.1⟩

/-- The `ParticleCloud` constructor defaults (`src/main.js.bak` lines
166–180); colors `0x4466ff`, `0xff66aa`, `0x66ffaa` as normalized RGB. -/
def sampleOpts : PCOpts :=
  ⟨15000, 0.12, 0.05, (68 / 255, 102 / 255, 1), (1, 102 / 255, 170 / 255),
    (102 / 255, 1, 170 / 255), 1, 3, 0.5, 5, 0.5, 0.1⟩

/-- A concrete emitter as created by `createEmitters`. -/
def sampleEmitter : Emitter := ⟨(15, 0, 0), 2, 1, 0⟩

/-- A small concrete `ParticleCloud` state with two particles. -/
def samplePC : PC :=
  ⟨{ sampleOpts with count := 2 }, 0, [sampleEmitter],
   [1, 2, 3, 4, 5, 6], [0, 0, 0, 0, 0, 0], [0, 0, 0, 0, 0, 0], [1, 1, 1, 1, 1, 1],
   [0.1, 0.1], [5, 5], [0, 0], [1, 1]⟩

/-- The position triple of particle `i` in the flat `positions` array. -/
def PC.posAt (pc : PC) (i : ℕ) : R3 :=
  (pc.positions.getD (3 * i) 0, pc.positions.getD (3 * i + 1) 0,
   pc.positions.getD (3 * i + 2) 0)

/-- A concrete `ParticleCloud.update` environment: pointer inactive, audio
off, all random draws `1/2`. -/
def samplePCEnv : PCEnv := ⟨false, false, (0, 0, 0), 30, false, 0, fun _ => 1/2, fun _ _ => 1/2⟩

/-! ## Theorems -/

@[simp] theorem JVal.san_fin (a : ℝ) : JVal.san (.fin a) = .fin a := rfl

@[simp] theorem JVal.san_isFin (v : JVal) : (JVal.san v).isFin = true := by
  cases v <;> rfl

@[simp] theorem JVal.add_fin (a b : ℝ) : JVal.add (.fin a) (.fin b) = .fin (a + b) := rfl

@[simp] theorem JVal.sub_fin (a b : ℝ) : JVal.sub (.fin a) (.fin b) = .fin (a - b) := rfl

@[simp] theorem JVal.mul_fin (a b : ℝ) : JVal.mul (.fin a) (.fin b) = .fin (a * b) := rfl

@[simp] theorem JVal.isFin_fin (a : ℝ) : (JVal.fin a).isFin = true := rfl

@[simp] theorem JVal.isFin_nan : JVal.nan.isFin = false := rfl

theorem JVal.isFin_iff (v : JVal) : v.isFin = true ↔ ∃ a : ℝ, v = .fin a := by
  cases v <;> simp [JVal.isFin]

@[simp] theorem JVal.mul_isFin_left (a : ℝ) (v : JVal) :
    (JVal.mul (.fin a) v).isFin = v.isFin := by
  cases v <;> rfl

theorem normSq3_nonneg (v : R3) : 0 ≤ normSq3 v := by
  have h1 : 0 ≤ v.1 * v.1 := mul_self_nonneg _
  have h2 : 0 ≤ v.2.1 * v.2.1 := mul_self_nonneg _
  have h3 : 0 ≤ v.2.2 * v.2.2 := mul_self_nonneg _
  unfold normSq3; linarith

theorem norm3_nonneg (v : R3) : 0 ≤ norm3 v := Real.sqrt_nonneg _

theorem norm3_sq (v : R3) : norm3 v * norm3 v = normSq3 v :=
  Real.mul_self_sqrt (normSq3_nonneg v)

theorem norm3_eq_zero_iff (v : R3) : norm3 v = 0 ↔ normSq3 v = 0 := by
  unfold norm3
  constructor
  · intro h
    have := norm3_sq v
    unfold norm3 at this
    rw [h] at this
    linarith [this]
  · intro h; rw [h, Real.sqrt_zero]

theorem norm3_smul (k : ℝ) (v : R3) : norm3 (smul3 k v) = |k| * norm3 v := by
  unfold norm3 normSq3 smul3
  have h : (k * v.1 * (k * v.1) + k * v.2.1 * (k * v.2.1) + k * v.2.2 * (k * v.2.2))
      = k ^ 2 * (v.1 * v.1 + v.2.1 * v.2.1 + v.2.2 * v.2.2) := by ring
  rw [h]
  rw [Real.sqrt_mul (sq_nonneg k), Real.sqrt_sq_eq_abs]

theorem norm3_normalize (v : R3) (h : norm3 v ≠ 0) : norm3 (normalize3 v) = 1 := by
  unfold normalize3
  rw [if_neg h, norm3_smul]
  have hpos : 0 < norm3 v := lt_of_le_of_ne (norm3_nonneg v) (Ne.symm h)
  rw [abs_of_pos (by positivity)]
  field_simp

/-- Cauchy–Schwarz for 3-vectors. -/
theorem dot3_sq_le (u v : R3) : dot3 u v * dot3 u v ≤ normSq3 u * normSq3 v := by
  obtain ⟨a, b, c⟩ := u
  obtain ⟨d, e, f⟩ := v
  unfold dot3 normSq3
  nlinarith [sq_nonneg (a * e - b * d), sq_nonneg (a * f - c * d), sq_nonneg (b * f - c * e)]

theorem dot3_le_norm3 (u v : R3) : dot3 u v ≤ norm3 u * norm3 v := by
  have h1 : dot3 u v ≤ |dot3 u v| := le_abs_self _
  have h2 : |dot3 u v| = Real.sqrt (dot3 u v * dot3 u v) := by
    rw [← Real.sqrt_mul_self (abs_nonneg _), abs_mul_abs_self]
  have h3 : Real.sqrt (dot3 u v * dot3 u v) ≤ Real.sqrt (normSq3 u * normSq3 v) :=
    Real.sqrt_le_sqrt (dot3_sq_le u v)
  have h4 : Real.sqrt (normSq3 u * normSq3 v) = norm3 u * norm3 v := by
    unfold norm3
    exact Real.sqrt_mul (normSq3_nonneg u) _
  calc dot3 u v ≤ |dot3 u v| := h1
    _ = Real.sqrt (dot3 u v * dot3 u v) := h2
    _ ≤ Real.sqrt (normSq3 u * normSq3 v) := h3
    _ = norm3 u * norm3 v := h4

theorem norm3_add_le (u v : R3) : norm3 (add3 u v) ≤ norm3 u + norm3 v := by
  have hexp : normSq3 (add3 u v) = normSq3 u + 2 * dot3 u v + normSq3 v := by
    obtain ⟨a, b, c⟩ := u; obtain ⟨d, e, f⟩ := v
    unfold normSq3 add3 dot3; ring
  have hle : normSq3 (add3 u v) ≤ (norm3 u + norm3 v) * (norm3 u + norm3 v) := by
    have h1 := dot3_le_norm3 u v
    have h2 := norm3_sq u
    have h3 := norm3_sq v
    nlinarith
  calc norm3 (add3 u v) = Real.sqrt (normSq3 (add3 u v)) := rfl
    _ ≤ Real.sqrt ((norm3 u + norm3 v) * (norm3 u + norm3 v)) := Real.sqrt_le_sqrt hle
    _ = norm3 u + norm3 v := Real.sqrt_mul_self (add_nonneg (norm3_nonneg u) (norm3_nonneg v))

theorem coreStarCount_eq (N : ℕ) : coreStarCount N = N / 10 := by
  unfold coreStarCount
  rw [show ((N : ℚ) * 0.1) = (N : ℚ) / (10 : ℕ) by push_cast; ring]
  rw [Nat.floor_div_nat, Nat.floor_natCast]

theorem armStarCount_eq (N : ℕ) : armStarCount N = N / 2 := by
  unfold armStarCount
  rw [show ((N : ℚ) * 0.5) = (N : ℚ) / (2 : ℕ) by push_cast; ring]
  rw [Nat.floor_div_nat, Nat.floor_natCast]

theorem haloStarCount_eq (N : ℕ) : haloStarCount N = N / 5 := by
  unfold haloStarCount
  rw [show ((N : ℚ) * 0.2) = (N : ℚ) / (5 : ℕ) by push_cast; ring]
  rw [Nat.floor_div_nat, Nat.floor_natCast]

theorem nebulaParticleCount_eq (N : ℕ) : nebulaParticleCount N = N / 10 :=
  coreStarCount_eq N

/-- C3: the five sub-population sizes of `createGalaxySystem` are nonnegative and
sum exactly to the requested particle count. -/
theorem galaxy_population_sum (N : ℕ) :
    0 ≤ dustParticleCount N ∧
    (coreStarCount N : ℤ) + armStarCount N + haloStarCount N + nebulaParticleCount N +
      dustParticleCount N = N := by
  constructor
  · unfold dustParticleCount
    rw [coreStarCount_eq, armStarCount_eq, haloStarCount_eq, nebulaParticleCount_eq]
    omega
  · unfold dustParticleCount
    ring

theorem nebulaWrittenCount_le (c : ℕ) : nebulaWrittenCount c ≤ c := by
  unfold nebulaWrittenCount
  split
  · omega
  · rw [mul_comm]
    exact Nat.div_mul_le_self c _

theorem nebulaWrites_eq (s c : ℕ) :
    nebulaWrites s c = Finset.Ico s (s + nebulaWrittenCount c) := by
  ext j
  simp only [nebulaWrites, nebulaWrittenCount, Finset.mem_image, Finset.mem_filter,
    Finset.mem_range, Finset.mem_Ico]
  by_cases h : nebulaCount c = 0
  · simp [h]
  · have hn0 : 0 < nebulaCount c := Nat.pos_of_ne_zero h
    have hnle : nebulaCount c ≤ c := by
      have h100 : c / 100 ≤ c := Nat.div_le_self c 100
      unfold nebulaCount at *
      omega
    have hppn : 0 < c / nebulaCount c := Nat.div_pos hnle hn0
    have hmle : nebulaCount c * (c / nebulaCount c) ≤ c := by
      rw [mul_comm]
      exact Nat.div_mul_le_self c _
    rw [if_neg h]
    constructor
    · rintro ⟨i, ⟨hic, _, hlt⟩, rfl⟩
      have := (Nat.div_lt_iff_lt_mul hppn).1 hlt
      omega
    · rintro ⟨hjs, hjlt⟩
      refine ⟨j - s, ⟨by omega, h, ?_⟩, by omega⟩
      exact (Nat.div_lt_iff_lt_mul hppn).2 (by omega)

/-- C10 (amended): the dust remainder is nonnegative (at least a tenth of the
requested count); the five chained generator calls of `createGalaxySystem`
have pairwise-disjoint write sets; and their union is the index range
`[0, N)` minus the tail of the nebula range that `createNebulaClouds` skips
(its loop `continue`s once `floor(i / particlesPerNebula)` reaches
`nebulaCount`, so only the first `nebulaCount * particlesPerNebula` of its
indices — none at all when its count is below 100 — are written).  In
particular there is no overlap and no out-of-bounds write, but the range is
covered exactly only when that skipped tail is empty. -/
theorem galaxy_layout_partition (N : ℕ) :
    (N : ℚ) / 10 ≤ (dustParticleCount N : ℚ) ∧
    ((genWrites (coreStart N) (coreStarCount N) ∪
      genWrites (armStart N) (armStarCount N) ∪
      genWrites (haloStart N) (haloStarCount N) ∪
      nebulaWrites (nebulaStart N) (nebulaParticleCount N) ∪
      genWrites (dustStart N) (dustParticleCount N).toNat)
      = Finset.range N \
        Finset.Ico (nebulaStart N + nebulaWrittenCount (nebulaParticleCount N))
          (nebulaStart N + nebulaParticleCount N)) ∧
    Disjoint (genWrites (coreStart N) (coreStarCount N))
      (genWrites (armStart N) (armStarCount N)) ∧
    Disjoint (genWrites (coreStart N) (coreStarCount N))
      (genWrites (haloStart N) (haloStarCount N)) ∧
    Disjoint (genWrites (coreStart N) (coreStarCount N))
      (nebulaWrites (nebulaStart N) (nebulaParticleCount N)) ∧
    Disjoint (genWrites (coreStart N) (coreStarCount N))
      (genWrites (dustStart N) (dustParticleCount N).toNat) ∧
    Disjoint (genWrites (armStart N) (armStarCount N))
      (genWrites (haloStart N) (haloStarCount N)) ∧
    Disjoint (genWrites (armStart N) (armStarCount N))
      (nebulaWrites (nebulaStart N) (nebulaParticleCount N)) ∧
    Disjoint (genWrites (armStart N) (armStarCount N))
      (genWrites (dustStart N) (dustParticleCount N).toNat) ∧
    Disjoint (genWrites (haloStart N) (haloStarCount N))
      (nebulaWrites (nebulaStart N) (nebulaParticleCount N)) ∧
    Disjoint (genWrites (haloStart N) (haloStarCount N))
      (genWrites (dustStart N) (dustParticleCount N).toNat) ∧
    Disjoint (nebulaWrites (nebulaStart N) (nebulaParticleCount N))
      (genWrites (dustStart N) (dustParticleCount N).toNat) := by
  have hcore := coreStarCount_eq N
  have harm := armStarCount_eq N
  have hhalo := haloStarCount_eq N
  have hneb := nebulaParticleCount_eq N
  have hdust : dustParticleCount N =
      (N : ℤ) - ((N / 10 : ℕ) : ℤ) - ((N / 2 : ℕ) : ℤ) - ((N / 5 : ℕ) : ℤ) - ((N / 10 : ℕ) : ℤ) := by
    unfold dustParticleCount
    rw [hcore, harm, hhalo, hneb]
  have hW : nebulaWrittenCount (N / 10) ≤ N / 10 := nebulaWrittenCount_le _
  refine ⟨?_, ?_, ?_, ?_, ?_, ?_, ?_, ?_, ?_, ?_, ?_, ?_⟩
  · have hz : (N : ℤ) ≤ 10 * dustParticleCount N := by
      rw [hdust]; omega
    have hq : (N : ℚ) ≤ 10 * ((dustParticleCount N : ℤ) : ℚ) := by exact_mod_cast hz
    linarith
  · ext j
    simp only [genWrites, nebulaWrites_eq, coreStart, armStart, haloStart, nebulaStart,
      dustStart, genReturn, hcore, harm, hhalo, hneb, hdust, Finset.mem_union,
      Finset.mem_sdiff, Finset.mem_Ico, Finset.mem_range]
    omega
  all_goals
    simp only [genWrites, nebulaWrites_eq, Finset.disjoint_left, Finset.mem_Ico, coreStart,
      armStart, haloStart, nebulaStart, dustStart, genReturn, hcore, harm, hhalo, hneb, hdust]
    omega

/-- C10 counterexample: the original "no gap" coverage fails.  For
`N = 3100` the nebula range is `[2480, 2790)` with 310 particles, but
`createNebulaClouds` makes 3 nebulae of `floor(310/3) = 103` particles each
and its `continue` skips iteration 309, so index 2789 lies in `[0, N)` yet is
written by none of the five generators. -/
theorem galaxy_layout_partition_counterexample :
    2789 ∈ Finset.range 3100 ∧
    2789 ∉ (genWrites (coreStart 3100) (coreStarCount 3100) ∪
      genWrites (armStart 3100) (armStarCount 3100) ∪
      genWrites (haloStart 3100) (haloStarCount 3100) ∪
      nebulaWrites (nebulaStart 3100) (nebulaParticleCount 3100) ∪
      genWrites (dustStart 3100) (dustParticleCount 3100).toNat) := by
  have hcore : coreStarCount 3100 = 310 := by rw [coreStarCount_eq]
  have harm : armStarCount 3100 = 1550 := by rw [armStarCount_eq]
  have hhalo : haloStarCount 3100 = 620 := by rw [haloStarCount_eq]
  have hneb : nebulaParticleCount 3100 = 310 := by rw [nebulaParticleCount_eq]
  have hdust : (dustParticleCount 3100).toNat = 310 := by
    unfold dustParticleCount
    rw [hcore, harm, hhalo, hneb]
    rfl
  have hwc : nebulaWrittenCount 310 = 309 := by
    unfold nebulaWrittenCount nebulaCount
    norm_num
  constructor
  · simp
  · simp only [genWrites, nebulaWrites_eq, coreStart, armStart, haloStart, nebulaStart,
      dustStart, genReturn, hcore, harm, hhalo, hneb, hdust, hwc, Finset.mem_union,
      Finset.mem_Ico]
    omega

@[simp] theorem JV3.san_AllFin (v : JV3) : (JV3.san v).AllFin := by
  refine ⟨?_, ?_, ?_⟩ <;> simp [JV3.san]

@[simp] theorem JVal.mul_isFin_right (v : JVal) (a : ℝ) :
    (JVal.mul v (.fin a)).isFin = v.isFin := by
  cases v <;> rfl

@[simp] theorem JVal.add_isFin_right (v : JVal) (a : ℝ) :
    (JVal.add v (.fin a)).isFin = v.isFin := by
  cases v <;> rfl

@[simp] theorem JVal.sub_isFin_right (v : JVal) (a : ℝ) :
    (JVal.sub v (.fin a)).isFin = v.isFin := by
  cases v <;> rfl

theorem mem_updAll {α : Type} (f : ℕ → α → α) (k : ℕ) (l : List α) (q : α)
    (hq : q ∈ updAll f k l) : ∃ i p, p ∈ l ∧ q = f i p := by
  induction l generalizing k with
  | nil => simp [updAll] at hq
  | cons a t ih =>
    simp only [updAll, List.mem_cons] at hq
    rcases hq with h | h
    · exact ⟨k, a, List.mem_cons_self a t, h⟩
    · obtain ⟨i, p, hp, hfp⟩ := ih (k + 1) h
      exact ⟨i, p, List.mem_cons_of_mem a hp, hfp⟩

theorem driftStep_AllFin (cfg : DriftCfg) (env : DriftEnv) (i : ℕ) (p : DParticle)
    (hc : p.color.AllFin) : (driftStepParticle cfg env i p).AllFin := by
  obtain ⟨h1, h2, h3⟩ := hc
  unfold driftStepParticle DParticle.AllFin
  refine ⟨JV3.san_AllFin _, JV3.san_AllFin _, ?_, ?_⟩
  · by_cases h : env.isAudioActive = true ∧ i % 5 = 0 <;>
      simp [h, JV3.AllFin, h1, h2, h3]
  · by_cases h : env.isAudioActive = true <;> simp [h]

theorem galaxyStep_AllFin (env : GalaxyEnv) (p : GParticle)
    (hc : p.color.AllFin) (hs : p.size.isFin = true) :
    (galaxyStepParticle env p).AllFin := by
  unfold galaxyStepParticle GParticle.AllFin
  exact ⟨JV3.san_AllFin _, JV3.san_AllFin _, JV3.san_AllFin _, hc, hs⟩

theorem updateParticleEffects_AllFin (cfg : DriftCfg) (env : DriftEnv) (s : List DParticle)
    (hc : ∀ p ∈ s, p.color.AllFin) :
    ∀ q ∈ updateParticleEffects cfg env s, q.AllFin := by
  intro q hq
  obtain ⟨i, p, hp, rfl⟩ := mem_updAll _ _ _ _ hq
  exact driftStep_AllFin cfg env i p (hc p hp)

theorem updateGalaxyPhysics_AllFin (env : GalaxyEnv) (s : List GParticle)
    (hc : ∀ p ∈ s, p.color.AllFin ∧ p.size.isFin = true) :
    ∀ q ∈ updateGalaxyPhysics env s, q.AllFin := by
  intro q hq
  obtain ⟨i, p, hp, rfl⟩ := mem_updAll _ _ _ _ hq
  exact galaxyStep_AllFin env p (hc p hp).1 (hc p hp).2

theorem driftRun_preserve_AllFin (steps : List (DriftCfg × DriftEnv)) :
    ∀ s : List DParticle, (∀ p ∈ s, p.AllFin) → ∀ q ∈ driftRun steps s, q.AllFin := by
  induction steps with
  | nil => intro s hs q hq; exact hs q hq
  | cons st rest ih =>
    intro s hs q hq
    obtain ⟨cfg, env⟩ := st
    exact ih _ (updateParticleEffects_AllFin cfg env s fun p hp => (hs p hp).2.2.1) q hq

theorem galaxyRun_preserve_AllFin (envs : List GalaxyEnv) :
    ∀ s : List GParticle, (∀ p ∈ s, p.AllFin) → ∀ q ∈ galaxyRun envs s, q.AllFin := by
  induction envs with
  | nil => intro s hs q hq; exact hs q hq
  | cons env rest ih =>
    intro s hs q hq
    exact ih _ (updateGalaxyPhysics_AllFin env s
      fun p hp => ⟨(hs p hp).2.2.2.1, (hs p hp).2.2.2.2⟩) q hq

/-- C1: after every per-frame update (`updateParticleEffects` in drift mode,
`updateGalaxyPhysics` in galaxy mode) — and hence after any nonempty sequence
of such updates — every particle's numeric attributes (position, velocity,
acceleration, color, size) are finite: every `NaN` produced on a position,
velocity or acceleration slot is replaced by `0` by the end-of-iteration
sanitization, and the remaining attributes are finite provided the
generation-time-sanitized color (and, in galaxy mode, size) attributes were
finite on entry. -/
theorem update_finiteness :
    (∀ (steps : List (DriftCfg × DriftEnv)) (s : List DParticle), steps ≠ [] →
      (∀ p ∈ s, p.color.AllFin) → ∀ q ∈ driftRun steps s, q.AllFin) ∧
    (∀ (envs : List GalaxyEnv) (s : List GParticle), envs ≠ [] →
      (∀ p ∈ s, p.color.AllFin ∧ p.size.isFin = true) →
      ∀ q ∈ galaxyRun envs s, q.AllFin) := by
  constructor
  · intro steps s hne hc q hq
    match steps, hne with
    | (cfg, env) :: rest, _ =>
      exact driftRun_preserve_AllFin rest _
        (updateParticleEffects_AllFin cfg env s hc) q hq
  · intro envs s hne hc q hq
    match envs, hne with
    | env :: rest, _ =>
      exact galaxyRun_preserve_AllFin rest _
        (updateGalaxyPhysics_AllFin env s hc) q hq

@[simp] theorem JV3.san_finV (w : R3) : JV3.san (finV w) = finV w := by
  simp [JV3.san, finV]

@[simp] theorem JV3.addF_finV (u w : R3) : JV3.addF (finV u) w = finV (add3 u w) := by
  simp [JV3.addF, finV, add3]

theorem JVal.sqrt_fin (a : ℝ) :
    JVal.sqrt (.fin a) = if 0 ≤ a then .fin (Real.sqrt a) else .nan := rfl

theorem JVal.div_fin (a b : ℝ) :
    JVal.div (.fin a) (.fin b) = if b = 0 then .nan else .fin (a / b) := rfl

theorem galaxyDampedVel_fin (env : GalaxyEnv) (p : GParticle) (hv : p.vel.AllFin) :
    ∃ u : R3, galaxyDampedVel env p = finV u := by
  obtain ⟨va, hva⟩ := (JVal.isFin_iff _).1 hv.1
  obtain ⟨vb, hvb⟩ := (JVal.isFin_iff _).1 hv.2.1
  obtain ⟨vc, hvc⟩ := (JVal.isFin_iff _).1 hv.2.2
  refine ⟨((va + clampR ((galaxyAccel env p.mass.orOne p.posGuard).1 * 0.016) (-0.1) 0.1) *
      env.settings.stabilityFactor,
    (vb + clampR ((galaxyAccel env p.mass.orOne p.posGuard).2.1 * 0.016) (-0.1) 0.1) *
      env.settings.stabilityFactor,
    (vc + clampR ((galaxyAccel env p.mass.orOne p.posGuard).2.2 * 0.016) (-0.1) 0.1) *
      env.settings.stabilityFactor), ?_⟩
  unfold galaxyDampedVel
  rw [hva, hvb, hvc]
  rfl


theorem capVelocity_finV (u : R3) :
    ∃ w : R3, capVelocity (finV u) = finV w ∧ norm3 w ≤ 2 := by
  have hcv : ((((finV u).1.mul (finV u).1).add ((finV u).2.1.mul (finV u).2.1)).add
      ((finV u).2.2.mul (finV u).2.2)).sqrt = JVal.fin (norm3 u) := by
    show JVal.sqrt (.fin (u.1 * u.1 + u.2.1 * u.2.1 + u.2.2 * u.2.2)) = _
    rw [JVal.sqrt_fin,
      if_pos (show (0:ℝ) ≤ u.1 * u.1 + u.2.1 * u.2.1 + u.2.2 * u.2.2 from normSq3_nonneg u)]
    rfl
  by_cases h : (2:ℝ) < norm3 u
  · have hn : norm3 u ≠ 0 := by intro h0; rw [h0] at h; norm_num at h
    refine ⟨(u.1 * (2 / norm3 u), u.2.1 * (2 / norm3 u), u.2.2 * (2 / norm3 u)), ?_, ?_⟩
    · simp only [capVelocity]
      rw [hcv, if_pos (show (JVal.fin (norm3 u)).gtR 2 from h), JVal.div_fin, if_neg hn]
      rfl
    · have hw : ((u.1 * (2 / norm3 u), u.2.1 * (2 / norm3 u), u.2.2 * (2 / norm3 u)) : R3)
          = smul3 (2 / norm3 u) u := by
        unfold smul3
        exact Prod.ext (mul_comm _ _) (Prod.ext (mul_comm _ _) (mul_comm _ _))
      rw [hw, norm3_smul]
      have hpos : (0:ℝ) < norm3 u := by linarith
      rw [abs_of_pos (by positivity)]
      rw [div_mul_cancel₀ _ hn]
  · refine ⟨u, ?_, not_lt.1 h⟩
    simp only [capVelocity]
    rw [hcv, if_neg (show ¬ (JVal.fin (norm3 u)).gtR 2 from h)]

theorem containVelocity_finV (s : GalaxySettings) (d : ℝ) (q : R3) (u : R3)
    (hu : norm3 u ≤ 2) :
    ∃ w : R3, containVelocity s d q (finV u) = finV w ∧ norm3 w ≤ 2.01 := by
  simp only [containVelocity]
  by_cases h1 : s.galaxyRadius * 5 < d
  · rw [if_pos h1]
    by_cases h2 : (0.000001 : ℝ) < normSq3 (sub3 zero3 q)
    · rw [if_pos h2]
      refine ⟨add3 u (smul3 0.01 (normalize3 (sub3 zero3 q))), JV3.addF_finV u _, ?_⟩
      have hz : norm3 (sub3 zero3 q) ≠ 0 := by
        rw [Ne, norm3_eq_zero_iff]
        intro h0
        rw [h0] at h2
        norm_num at h2
      have h3 := norm3_add_le u (smul3 0.01 (normalize3 (sub3 zero3 q)))
      rw [norm3_smul, norm3_normalize _ hz, abs_of_pos (by norm_num : (0:ℝ) < 0.01)] at h3
      linarith
    · rw [if_neg h2]
      exact ⟨u, rfl, by linarith⟩
  · rw [if_neg h1]
    exact ⟨u, rfl, by linarith⟩

/-- Witness for `update_finiteness` at a one-particle state and a one-frame
sequence, in each mode. -/
theorem update_finiteness_witness :
    (([(sampleDriftCfg, sampleDriftEnv)] : List (DriftCfg × DriftEnv)) ≠ [] ∧
      (∀ p ∈ [sampleDParticle], p.color.AllFin)) ∧
    (([sampleGalaxyEnv] : List GalaxyEnv) ≠ [] ∧
      (∀ p ∈ [sampleGParticle], p.color.AllFin ∧ p.size.isFin = true)) ∧
    (∀ q ∈ driftRun [(sampleDriftCfg, sampleDriftEnv)] [sampleDParticle], q.AllFin) ∧
    (∀ q ∈ galaxyRun [sampleGalaxyEnv] [sampleGParticle], q.AllFin) := by
  have hd : ∀ p ∈ [sampleDParticle], p.color.AllFin := by
    intro p hp
    rw [List.mem_singleton] at hp
    subst hp
    exact ⟨rfl, rfl, rfl⟩
  have hg : ∀ p ∈ [sampleGParticle], p.color.AllFin ∧ p.size.isFin = true := by
    intro p hp
    rw [List.mem_singleton] at hp
    subst hp
    exact ⟨⟨rfl, rfl, rfl⟩, rfl⟩
  exact ⟨⟨by simp, hd⟩, ⟨by simp, hg⟩,
    update_finiteness.1 _ _ (by simp) hd,
    update_finiteness.2 _ _ (by simp) hg⟩

/-- C2 (amended): after every `updateGalaxyPhysics` step, each particle whose
velocity slots are finite on entry has a finite velocity of magnitude at most
2.01: the 2.0 cap is enforced first, and the soft-containment nudge of
magnitude 0.01 may then be added, so 2.0 itself is exceeded by up to 0.01. -/
theorem galaxy_velocity_capped (env : GalaxyEnv) (p : GParticle) (hv : p.vel.AllFin) :
    ∃ w : R3, (galaxyStepParticle env p).vel = finV w ∧ norm3 w ≤ 2.01 := by
  obtain ⟨u, hu⟩ := galaxyDampedVel_fin env p hv
  obtain ⟨w3, hw3, h3⟩ := capVelocity_finV u
  obtain ⟨w4, hw4, h4⟩ :=
    containVelocity_finV env.settings (dist3 p.posGuard zero3) p.posGuard w3 h3
  refine ⟨w4, ?_, h4⟩
  simp only [galaxyStepParticle, hu, hw3, hw4, JV3.san_finV]

/-- Witness for `galaxy_velocity_capped` at a concrete particle. -/
theorem galaxy_velocity_capped_witness :
    sampleGParticle.vel.AllFin ∧
      ∃ w : R3, (galaxyStepParticle sampleGalaxyEnv sampleGParticle).vel = finV w ∧
        norm3 w ≤ 2.01 :=
  ⟨⟨rfl, rfl, rfl⟩, galaxy_velocity_capped sampleGalaxyEnv sampleGParticle ⟨rfl, rfl, rfl⟩⟩

theorem sqrt_40000 : Real.sqrt 40000 = 200 := by
  rw [show (40000:ℝ) = 200 ^ 2 by norm_num]
  exact Real.sqrt_sq (by norm_num)

theorem sqrt_100 : Real.sqrt 100 = 10 := by
  rw [show (100:ℝ) = 10 ^ 2 by norm_num]
  exact Real.sqrt_sq (by norm_num)

/-- C2 counterexample: the claimed 2.0 bound fails after one
`updateGalaxyPhysics` step.  A particle 200 units from the origin moving at
speed 10 toward it is capped to speed 2, but the containment nudge applied
afterwards leaves it at exactly 2.01 > 2.0. -/
theorem galaxy_velocity_cap_counterexample :
    (galaxyStepParticle capExEnv capExParticle).vel = finV (-2.01, 0, 0) ∧
      2 < norm3 (-2.01, 0, 0) := by
  have hpg : capExParticle.posGuard = ((200 : ℝ), (0 : ℝ), (0 : ℝ)) := rfl
  have hmass : capExParticle.mass.orOne = (1 : ℝ) := by
    show (if (1:ℝ) = 0 then (1:ℝ) else 1) = 1
    norm_num
  have hacc : galaxyAccel capExEnv (1 : ℝ) ((200 : ℝ), (0 : ℝ), (0 : ℝ))
      = ((0 : ℝ), (0 : ℝ), (0 : ℝ)) := by
    norm_num [galaxyAccel, gravityAccelR, capExEnv, sub3, zero3, normSq3, smul3, add3]
  have hdv : galaxyDampedVel capExEnv capExParticle = finV (-10, 0, 0) := by
    unfold galaxyDampedVel
    rw [hpg, hmass, hacc]
    norm_num [capExParticle, capExEnv, clampR, min_def, max_def, finV,
      JVal.add, JVal.mul]
  have hcap : capVelocity (finV (-10, 0, 0)) = finV (-2, 0, 0) := by
    norm_num [capVelocity, finV, JVal.add, JVal.mul, JVal.sqrt_fin, JVal.div_fin,
      JVal.gtR, sqrt_100]
  have hd : dist3 ((200 : ℝ), (0 : ℝ), (0 : ℝ)) zero3 = 200 := by
    norm_num [dist3, sub3, zero3, norm3, normSq3, sqrt_40000]
  have hcon : containVelocity capExEnv.settings 200 ((200 : ℝ), (0 : ℝ), (0 : ℝ))
      (finV (-2, 0, 0)) = finV (-2.01, 0, 0) := by
    norm_num [containVelocity, capExEnv, sub3, zero3, normSq3, normalize3, norm3,
      sqrt_40000, smul3, add3, JV3.addF, finV, JVal.add]
  constructor
  · simp only [galaxyStepParticle, hpg, hmass, hacc, hdv, hcap, hd, hcon, JV3.san_finV]
  · have h1 : normSq3 ((-2.01 : ℝ), (0 : ℝ), (0 : ℝ)) = 2.01 ^ 2 := by
      norm_num [normSq3]
    have h2 : norm3 ((-2.01 : ℝ), (0 : ℝ), (0 : ℝ)) = 2.01 := by
      unfold norm3
      rw [h1, Real.sqrt_sq (by norm_num)]
    rw [h2]
    norm_num

theorem smul3_smul3 (a b : ℝ) (v : R3) : smul3 a (smul3 b v) = smul3 (a * b) v := by
  unfold smul3
  exact Prod.ext (by ring) (Prod.ext (by ring) (by ring))

theorem dist3_sq (u v : R3) : dist3 u v * dist3 u v = normSq3 (sub3 u v) := norm3_sq _

theorem norm3_zero3 : norm3 zero3 = 0 := by
  unfold norm3 normSq3 zero3
  norm_num

/-- C4 (amended): with gravity enabled, the black-hole contribution to a
particle's acceleration has magnitude
`0.01 * blackHoleMass * mass / max(0.1², dist²) / max(0.1, mass)` and is a
positive multiple of the vector from the particle to the origin — except that
it is zero whenever the squared length of that direction vector is at or below
`1e-6` (the code skips at exactly `1e-6` as well, since its test is strict in
the other direction). -/
theorem gravity_force_law (s : GalaxySettings) (m : ℝ) (q : R3)
    (hM : 0 < s.blackHoleMass) (hm : 0 < m) :
    (normSq3 (sub3 zero3 q) ≤ 0.000001 → gravityAccelR s m q = zero3) ∧
    (0.000001 < normSq3 (sub3 zero3 q) →
      norm3 (gravityAccelR s m q) =
        0.01 * s.blackHoleMass * m /
          max (0.1 * 0.1) (dist3 q zero3 * dist3 q zero3) / max 0.1 m ∧
      ∃ c : ℝ, 0 < c ∧ gravityAccelR s m q = smul3 c (sub3 zero3 q)) := by
  constructor
  · intro h
    simp only [gravityAccelR]
    rw [if_neg (not_lt.2 h)]
  · intro h
    have hd0 : norm3 (sub3 zero3 q) ≠ 0 := by
      rw [Ne, norm3_eq_zero_iff]
      intro h0
      rw [h0] at h
      norm_num at h
    have hnd : 0 < norm3 (sub3 zero3 q) :=
      lt_of_le_of_ne (norm3_nonneg _) (Ne.symm hd0)
    have hden1 : (0:ℝ) < max (0.1 * 0.1) (dist3 q zero3 * dist3 q zero3) :=
      lt_max_of_lt_left (by norm_num)
    have hden2 : (0:ℝ) < max 0.1 m := lt_max_of_lt_left (by norm_num)
    have hF : 0 < 0.01 * s.blackHoleMass * m /
        max (0.1 * 0.1) (dist3 q zero3 * dist3 q zero3) :=
      div_pos (by positivity) hden1
    have hff : 0 < 0.01 * s.blackHoleMass * m /
        max (0.1 * 0.1) (dist3 q zero3 * dist3 q zero3) / max 0.1 m :=
      div_pos hF hden2
    simp only [gravityAccelR]
    rw [if_pos h]
    constructor
    · rw [norm3_smul, norm3_normalize _ hd0, mul_one, abs_of_pos hff]
    · refine ⟨(0.01 * s.blackHoleMass * m /
          max (0.1 * 0.1) (dist3 q zero3 * dist3 q zero3) / max 0.1 m) *
          (1 / norm3 (sub3 zero3 q)), ?_, ?_⟩
      · positivity
      · rw [normalize3, if_neg hd0, smul3_smul3]

/-- Witness for `gravity_force_law` at the default settings, unit mass and a
particle at distance 10 on the x-axis. -/
theorem gravity_force_law_witness :
    (0 : ℝ) < sampleGalaxySettings.blackHoleMass ∧ ((0 : ℝ) < 1) ∧
    ((normSq3 (sub3 zero3 ((10 : ℝ), 0, 0)) ≤ 0.000001 →
        gravityAccelR sampleGalaxySettings 1 ((10 : ℝ), 0, 0) = zero3) ∧
      (0.000001 < normSq3 (sub3 zero3 ((10 : ℝ), 0, 0)) →
        norm3 (gravityAccelR sampleGalaxySettings 1 ((10 : ℝ), 0, 0)) =
          0.01 * sampleGalaxySettings.blackHoleMass * 1 /
            max (0.1 * 0.1)
              (dist3 ((10 : ℝ), 0, 0) zero3 * dist3 ((10 : ℝ), 0, 0) zero3) / max 0.1 1 ∧
        ∃ c : ℝ, 0 < c ∧ gravityAccelR sampleGalaxySettings 1 ((10 : ℝ), 0, 0) =
          smul3 c (sub3 zero3 ((10 : ℝ), 0, 0)))) :=
  ⟨by norm_num [sampleGalaxySettings], by norm_num,
    gravity_force_law sampleGalaxySettings 1 ((10 : ℝ), 0, 0)
      (by norm_num [sampleGalaxySettings]) (by norm_num)⟩

/-- C4 counterexample: at squared direction length exactly `1e-6` (particle at
`(0.001, 0, 0)`) the code's contribution is zero, while the claimed magnitude
formula — which the claim applies whenever the squared length is not *below*
`1e-6` — evaluates to 1000 ≠ 0. -/
theorem gravity_force_law_counterexample :
    ¬ (normSq3 (sub3 zero3 ((0.001 : ℝ), 0, 0)) < 0.000001) ∧
    gravityAccelR sampleGalaxySettings 1 ((0.001 : ℝ), 0, 0) = zero3 ∧
    0.01 * sampleGalaxySettings.blackHoleMass * 1 /
        max (0.1 * 0.1)
          (dist3 ((0.001 : ℝ), 0, 0) zero3 * dist3 ((0.001 : ℝ), 0, 0) zero3) / max 0.1 1 ≠
      norm3 (gravityAccelR sampleGalaxySettings 1 ((0.001 : ℝ), 0, 0)) := by
  have hz : gravityAccelR sampleGalaxySettings 1 ((0.001 : ℝ), 0, 0) = zero3 := by
    simp only [gravityAccelR]
    rw [if_neg]
    norm_num [normSq3, sub3, zero3]
  refine ⟨by norm_num [normSq3, sub3, zero3], hz, ?_⟩
  rw [hz, dist3_sq, norm3_zero3]
  norm_num [normSq3, sub3, zero3, sampleGalaxySettings]

theorem clampPos_finV (u : R3) :
    ∃ w : R3, clampPos (finV u) = finV w ∧ norm3 w ≤ 50 := by
  have hcv : ((((finV u).1.mul (finV u).1).add ((finV u).2.1.mul (finV u).2.1)).add
      ((finV u).2.2.mul (finV u).2.2)).sqrt = JVal.fin (norm3 u) := by
    show JVal.sqrt (.fin (u.1 * u.1 + u.2.1 * u.2.1 + u.2.2 * u.2.2)) = _
    rw [JVal.sqrt_fin,
      if_pos (show (0:ℝ) ≤ u.1 * u.1 + u.2.1 * u.2.1 + u.2.2 * u.2.2 from normSq3_nonneg u)]
    rfl
  by_cases h : (50:ℝ) < norm3 u
  · have hn : norm3 u ≠ 0 := by intro h0; rw [h0] at h; norm_num at h
    refine ⟨(u.1 * (50 / norm3 u), u.2.1 * (50 / norm3 u), u.2.2 * (50 / norm3 u)), ?_, ?_⟩
    · simp only [clampPos]
      rw [hcv, if_pos (show (JVal.fin (norm3 u)).gtR 50 from h), JVal.div_fin, if_neg hn]
      rfl
    · have hw : ((u.1 * (50 / norm3 u), u.2.1 * (50 / norm3 u), u.2.2 * (50 / norm3 u)) : R3)
          = smul3 (50 / norm3 u) u := by
        unfold smul3
        exact Prod.ext (mul_comm _ _) (Prod.ext (mul_comm _ _) (mul_comm _ _))
      rw [hw, norm3_smul]
      have hpos : (0:ℝ) < norm3 u := by linarith
      rw [abs_of_pos (by positivity), div_mul_cancel₀ _ hn]
  · refine ⟨u, ?_, not_lt.1 h⟩
    simp only [clampPos]
    rw [hcv, if_neg (show ¬ (JVal.fin (norm3 u)).gtR 50 from h)]

theorem san_clampPos_fins (x y z : ℝ) :
    ∃ w : R3, JV3.san (clampPos (.fin x, .fin y, .fin z)) = finV w ∧ norm3 w ≤ 50 := by
  obtain ⟨w, hw, hle⟩ := clampPos_finV (x, y, z)
  exact ⟨w, by rw [show ((JVal.fin x, JVal.fin y, JVal.fin z) : JV3) = finV (x, y, z) from rfl,
    hw, JV3.san_finV], hle⟩

@[simp] theorem JV3.addF_fins (a b c : ℝ) (w : R3) :
    JV3.addF (.fin a, .fin b, .fin c) w = (.fin (a + w.1), .fin (b + w.2.1), .fin (c + w.2.2)) :=
  rfl

theorem driftStepParticle_pos_le (cfg : DriftCfg) (env : DriftEnv) (i : ℕ) (p : DParticle)
    (hp : p.pos.AllFin) (hv : p.vel.AllFin) :
    ∃ w : R3, (driftStepParticle cfg env i p).pos = finV w ∧ norm3 w ≤ 50 := by
  obtain ⟨pa, hpa⟩ := (JVal.isFin_iff _).1 hp.1
  obtain ⟨pb, hpb⟩ := (JVal.isFin_iff _).1 hp.2.1
  obtain ⟨pc, hpc⟩ := (JVal.isFin_iff _).1 hp.2.2
  obtain ⟨va, hva⟩ := (JVal.isFin_iff _).1 hv.1
  obtain ⟨vb, hvb⟩ := (JVal.isFin_iff _).1 hv.2.1
  obtain ⟨vc, hvc⟩ := (JVal.isFin_iff _).1 hv.2.2
  have hpos : p.pos = (JVal.fin pa, JVal.fin pb, JVal.fin pc) := by
    rw [← hpa, ← hpb, ← hpc]
  have hvel : p.vel = (JVal.fin va, JVal.fin vb, JVal.fin vc) := by
    rw [← hva, ← hvb, ← hvc]
  unfold driftStepParticle driftVel
  rw [hpos, hvel]
  by_cases haud : env.isAudioActive = true
  · simp only [haud, if_true, JV3.addF_fins, JVal.add_fin, JVal.sub_fin, JVal.mul_fin]
    exact san_clampPos_fins _ _ _
  · simp only [haud, if_false, JV3.addF_fins, JVal.add_fin, JVal.sub_fin, JVal.mul_fin]
    exact san_clampPos_fins _ _ _

/-- C7: in drift mode, after each `updateParticleEffects` call every particle
whose position and velocity slots were finite — including one forcibly placed
at any distance, e.g. 1000, from the origin — has a finite position of
magnitude at most 50 (the hard containment clamp). -/
theorem drift_position_contained (cfg : DriftCfg) (env : DriftEnv) (s : List DParticle)
    (hs : ∀ p ∈ s, p.pos.AllFin ∧ p.vel.AllFin) :
    ∀ q ∈ updateParticleEffects cfg env s, ∃ w : R3, q.pos = finV w ∧ norm3 w ≤ 50 := by
  intro q hq
  obtain ⟨i, p, hp, rfl⟩ := mem_updAll _ _ _ _ hq
  exact driftStepParticle_pos_le cfg env i p (hs p hp).1 (hs p hp).2

/-- Witness for `drift_position_contained`: one update of the
distance-1000 particle ends within the radius-50 sphere. -/
theorem drift_position_contained_witness :
    (∀ p ∈ [farDParticle], p.pos.AllFin ∧ p.vel.AllFin) ∧
    (∀ q ∈ updateParticleEffects sampleDriftCfg sampleDriftEnv [farDParticle],
      ∃ w : R3, q.pos = finV w ∧ norm3 w ≤ 50) := by
  have h : ∀ p ∈ [farDParticle], p.pos.AllFin ∧ p.vel.AllFin := by
    intro p hp
    rw [List.mem_singleton] at hp
    subst hp
    exact ⟨⟨rfl, rfl, rfl⟩, ⟨rfl, rfl, rfl⟩⟩
  exact ⟨h, drift_position_contained sampleDriftCfg sampleDriftEnv [farDParticle] h⟩

/-- C5 (amended): the integrator's position update is `p += v * dt` with the
fixed `dt = 0.016` in galaxy mode (decoupled from the frame delta); it is
`p += v * delta * speedFactor` (frame-delta scaled) in the emitter-cloud mode
of `src/main.js.bak`; and it is plain `p += v`, with no frame-delta scaling at
all, in the drift mode of `src/main.js` (`updateParticleEffects` receives no
delta). -/
theorem integrator_position_update :
    (∀ (env : GalaxyEnv) (p : GParticle),
      (galaxyStepParticle env p).pos = JV3.san
        (p.pos.1.add ((galaxyDampedVel env p).1.mul (.fin 0.016)),
         p.pos.2.1.add ((galaxyDampedVel env p).2.1.mul (.fin 0.016)),
         p.pos.2.2.add ((galaxyDampedVel env p).2.2.mul (.fin 0.016)))) ∧
    (∀ (delta speedFactor : ℝ) (p v : R3),
      pcIntegratePos delta speedFactor p v = add3 p (smul3 (delta * speedFactor) v)) ∧
    (∀ (cfg : DriftCfg) (env : DriftEnv) (i : ℕ) (p : DParticle),
      (driftStepParticle cfg env i p).pos = JV3.san (clampPos
        (p.pos.1.add (driftVel cfg env i p).1,
         p.pos.2.1.add (driftVel cfg env i p).2.1,
         p.pos.2.2.add (driftVel cfg env i p).2.2))) := by
  refine ⟨fun env p => rfl, fun δ sf p v => ?_, fun cfg env i p => rfl⟩
  unfold pcIntegratePos add3 smul3
  exact Prod.ext (by ring) (Prod.ext (by ring) (by ring))

theorem clampPos_fins_eval (x y z : ℝ) (h : ¬ (50 < Real.sqrt (x * x + y * y + z * z))) :
    clampPos (.fin x, .fin y, .fin z) = (.fin x, .fin y, .fin z) := by
  simp only [clampPos]
  have hs : ((((JVal.fin x).mul (JVal.fin x)).add ((JVal.fin y).mul (JVal.fin y))).add
      ((JVal.fin z).mul (JVal.fin z))).sqrt
      = JVal.fin (Real.sqrt (x * x + y * y + z * z)) := by
    rw [JVal.mul_fin, JVal.mul_fin, JVal.mul_fin, JVal.add_fin, JVal.add_fin, JVal.sqrt_fin,
      if_pos (show (0:ℝ) ≤ x * x + y * y + z * z from normSq3_nonneg (x, y, z))]
  rw [hs, if_neg (show ¬ (JVal.fin (Real.sqrt (x * x + y * y + z * z))).gtR 50 from h)]

/-- C5 counterexample: in drift mode one `updateParticleEffects` step moves
the particle by its full damped velocity `0.98` — the displacement equals `v`,
not `v * delta` for the frame delta (`0.016` at 60 fps); the function has no
delta input at all. -/
theorem integrator_position_update_counterexample :
    (driftStepParticle c5Cfg sampleDriftEnv 0 c5Particle).pos.1 = JVal.fin 0.98 ∧
    (driftStepParticle c5Cfg sampleDriftEnv 0 c5Particle).vel.1 = JVal.fin 0.98 ∧
    ¬ ((0.98 : ℝ) - 0 = 0.98 * 0.016) := by
  have h1 : driftVel c5Cfg sampleDriftEnv 0 c5Particle
      = (JVal.fin 0.98, JVal.fin 0, JVal.fin 0) := by
    norm_num [driftVel, c5Cfg, sampleDriftEnv, c5Particle, JV3.addF, finV]
  have h2 : clampPos (.fin (49 / 50), .fin 0, .fin 0) = (.fin (49 / 50), .fin 0, .fin 0) :=
    clampPos_fins_eval (49 / 50) 0 0 (by
      rw [show (49 / 50 * (49 / 50) + 0 * 0 + 0 * 0 : ℝ) = (49 / 50) ^ 2 by norm_num,
        Real.sqrt_sq (by norm_num)]
      norm_num)
  refine ⟨?_, ?_, by norm_num⟩
  · simp only [driftStepParticle, h1]
    norm_num [c5Particle, finV]
    rw [h2]
    simp [JV3.san]
  · simp only [driftStepParticle, h1]
    simp [JV3.san]

/-- C8: while pointer interaction is active, a particle at nonzero distance
`d` within the influence radius `R = 20 * cameraZ / 30` of the pointer's
projected world point receives the velocity change
`(R - d) * interactiveForce * delta / d • (target - particle)`, of magnitude
proportional to `(R - d) * interactiveForce`; it points toward the target
when `interactiveForce > 0` and away from it when `interactiveForce < 0`, and
`setMouseMode` toggles attract/repel solely by setting `interactiveForce` to
`0.1` or `-0.1`. -/
theorem pointer_force_law (opts : PCOpts) (delta cameraZ : ℝ) (t p : R3)
    (hd0 : 0 < norm3 (sub3 t p))
    (hdR : norm3 (sub3 t p) < 20 * (cameraZ / 30))
    (hδ : 0 < delta) :
    mouseForce opts delta cameraZ t p =
      smul3 ((20 * (cameraZ / 30) - norm3 (sub3 t p)) * opts.interactiveForce * delta /
        norm3 (sub3 t p)) (sub3 t p) ∧
    norm3 (mouseForce opts delta cameraZ t p) =
      (20 * (cameraZ / 30) - norm3 (sub3 t p)) * |opts.interactiveForce| * delta ∧
    (0 < opts.interactiveForce → ∃ c : ℝ, 0 < c ∧
      mouseForce opts delta cameraZ t p = smul3 c (sub3 t p)) ∧
    (opts.interactiveForce < 0 → ∃ c : ℝ, 0 < c ∧
      mouseForce opts delta cameraZ t p = smul3 (-c) (sub3 t p)) ∧
    (∀ (pc : PC) (b : Bool), setMouseMode pc b =
      { pc with opts := { pc.opts with interactiveForce := if b then 0.1 else -0.1 } }) := by
  have hn : norm3 (sub3 t p) ≠ 0 := ne_of_gt hd0
  have hRd : 0 < 20 * (cameraZ / 30) - norm3 (sub3 t p) := sub_pos.2 hdR
  have hM : mouseForce opts delta cameraZ t p =
      smul3 ((20 * (cameraZ / 30) - norm3 (sub3 t p)) * opts.interactiveForce * delta /
        norm3 (sub3 t p)) (sub3 t p) := by
    simp only [mouseForce]
    rw [if_pos hdR, normalize3, if_neg hn, smul3_smul3, mul_one_div]
  have hNorm : norm3 (mouseForce opts delta cameraZ t p) =
      (20 * (cameraZ / 30) - norm3 (sub3 t p)) * |opts.interactiveForce| * delta := by
    simp only [mouseForce]
    rw [if_pos hdR, norm3_smul, norm3_normalize _ hn, mul_one, abs_mul, abs_mul,
      abs_of_pos hRd, abs_of_pos hδ]
  refine ⟨hM, hNorm, ?_, ?_, fun pc b => rfl⟩
  · intro hF
    refine ⟨(20 * (cameraZ / 30) - norm3 (sub3 t p)) * opts.interactiveForce * delta /
      norm3 (sub3 t p), ?_, hM⟩
    exact div_pos (mul_pos (mul_pos hRd hF) hδ) hd0
  · intro hF
    refine ⟨-((20 * (cameraZ / 30) - norm3 (sub3 t p)) * opts.interactiveForce * delta /
      norm3 (sub3 t p)), ?_, ?_⟩
    · have : (20 * (cameraZ / 30) - norm3 (sub3 t p)) * opts.interactiveForce * delta /
          norm3 (sub3 t p) < 0 :=
        div_neg_of_neg_of_pos (mul_neg_of_neg_of_pos (mul_neg_of_pos_of_neg hRd hF) hδ) hd0
      linarith
    · rw [neg_neg]
      exact hM

/-- Witness for `pointer_force_law`: particle 3 units from the pointer target,
camera at its default depth 30 (influence radius 20), delta 0.016. -/
theorem pointer_force_law_witness :
    (0 < norm3 (sub3 ((0:ℝ), (0:ℝ), (0:ℝ)) ((3:ℝ), (0:ℝ), (0:ℝ)))) ∧
    (norm3 (sub3 ((0:ℝ), (0:ℝ), (0:ℝ)) ((3:ℝ), (0:ℝ), (0:ℝ))) < 20 * ((30:ℝ) / 30)) ∧
    ((0:ℝ) < 0.016) ∧
    (mouseForce sampleOpts 0.016 30 ((0:ℝ), (0:ℝ), (0:ℝ)) ((3:ℝ), (0:ℝ), (0:ℝ)) =
      smul3 ((20 * ((30:ℝ) / 30) -
          norm3 (sub3 ((0:ℝ), (0:ℝ), (0:ℝ)) ((3:ℝ), (0:ℝ), (0:ℝ)))) *
          sampleOpts.interactiveForce * 0.016 /
        norm3 (sub3 ((0:ℝ), (0:ℝ), (0:ℝ)) ((3:ℝ), (0:ℝ), (0:ℝ))))
        (sub3 ((0:ℝ), (0:ℝ), (0:ℝ)) ((3:ℝ), (0:ℝ), (0:ℝ))) ∧
    norm3 (mouseForce sampleOpts 0.016 30 ((0:ℝ), (0:ℝ), (0:ℝ)) ((3:ℝ), (0:ℝ), (0:ℝ))) =
      (20 * ((30:ℝ) / 30) -
        norm3 (sub3 ((0:ℝ), (0:ℝ), (0:ℝ)) ((3:ℝ), (0:ℝ), (0:ℝ)))) *
        |sampleOpts.interactiveForce| * 0.016 ∧
    (0 < sampleOpts.interactiveForce → ∃ c : ℝ, 0 < c ∧
      mouseForce sampleOpts 0.016 30 ((0:ℝ), (0:ℝ), (0:ℝ)) ((3:ℝ), (0:ℝ), (0:ℝ)) =
        smul3 c (sub3 ((0:ℝ), (0:ℝ), (0:ℝ)) ((3:ℝ), (0:ℝ), (0:ℝ)))) ∧
    (sampleOpts.interactiveForce < 0 → ∃ c : ℝ, 0 < c ∧
      mouseForce sampleOpts 0.016 30 ((0:ℝ), (0:ℝ), (0:ℝ)) ((3:ℝ), (0:ℝ), (0:ℝ)) =
        smul3 (-c) (sub3 ((0:ℝ), (0:ℝ), (0:ℝ)) ((3:ℝ), (0:ℝ), (0:ℝ)))) ∧
    (∀ (pc : PC) (b : Bool), setMouseMode pc b =
      { pc with opts := { pc.opts with interactiveForce := if b then 0.1 else -0.1 } })) := by
  have h3 : norm3 (sub3 ((0:ℝ), (0:ℝ), (0:ℝ)) ((3:ℝ), (0:ℝ), (0:ℝ))) = 3 := by
    have hq : normSq3 (sub3 ((0:ℝ), (0:ℝ), (0:ℝ)) ((3:ℝ), (0:ℝ), (0:ℝ))) = 3 ^ 2 := by
      norm_num [normSq3, sub3]
    unfold norm3
    rw [hq, Real.sqrt_sq (by norm_num)]
  refine ⟨by rw [h3]; norm_num, by rw [h3]; norm_num, by norm_num, ?_⟩
  exact pointer_force_law sampleOpts 0.016 30 ((0:ℝ), (0:ℝ), (0:ℝ)) ((3:ℝ), (0:ℝ), (0:ℝ))
    (by rw [h3]; norm_num) (by rw [h3]; norm_num) (by norm_num)

/-- C9: rebirth of the particle at index `i` (`initParticle`) writes only the
attribute slots of index `i`: every attribute slot of any other index `j` is
unchanged, and the lengths of all eight attribute arrays are unchanged. -/
theorem initParticle_index_isolation (rnd : ℕ → ℝ) (pc : PC) (i : ℕ) (fe : ℤ)
    (j : ℕ) (hj : j ≠ i) :
    (∀ k < 3, (initParticle rnd pc i fe).positions[3 * j + k]? = pc.positions[3 * j + k]? ∧
      (initParticle rnd pc i fe).velocities[3 * j + k]? = pc.velocities[3 * j + k]? ∧
      (initParticle rnd pc i fe).accelerations[3 * j + k]? = pc.accelerations[3 * j + k]? ∧
      (initParticle rnd pc i fe).colors[3 * j + k]? = pc.colors[3 * j + k]?) ∧
    (initParticle rnd pc i fe).sizes[j]? = pc.sizes[j]? ∧
    (initParticle rnd pc i fe).lifeTimes[j]? = pc.lifeTimes[j]? ∧
    (initParticle rnd pc i fe).startTimes[j]? = pc.startTimes[j]? ∧
    (initParticle rnd pc i fe).opacities[j]? = pc.opacities[j]? ∧
    (initParticle rnd pc i fe).positions.length = pc.positions.length ∧
    (initParticle rnd pc i fe).velocities.length = pc.velocities.length ∧
    (initParticle rnd pc i fe).accelerations.length = pc.accelerations.length ∧
    (initParticle rnd pc i fe).colors.length = pc.colors.length ∧
    (initParticle rnd pc i fe).sizes.length = pc.sizes.length ∧
    (initParticle rnd pc i fe).lifeTimes.length = pc.lifeTimes.length ∧
    (initParticle rnd pc i fe).startTimes.length = pc.startTimes.length ∧
    (initParticle rnd pc i fe).opacities.length = pc.opacities.length := by
  have h0 : 3 * i ≠ 3 * j + 0 := by omega
  have h1 : 3 * i ≠ 3 * j + 1 := by omega
  have h2 : 3 * i ≠ 3 * j + 2 := by omega
  have g0 : 3 * i + 1 ≠ 3 * j + 0 := by omega
  have g1 : 3 * i + 1 ≠ 3 * j + 1 := by omega
  have g2 : 3 * i + 1 ≠ 3 * j + 2 := by omega
  have f0 : 3 * i + 2 ≠ 3 * j + 0 := by omega
  have f1 : 3 * i + 2 ≠ 3 * j + 1 := by omega
  have f2 : 3 * i + 2 ≠ 3 * j + 2 := by omega
  have hij : i ≠ j := fun h => hj h.symm
  refine ⟨?_, ?_, ?_, ?_, ?_, ?_, ?_, ?_, ?_, ?_, ?_, ?_, ?_⟩
  · intro k hk
    interval_cases k <;>
      refine ⟨?_, ?_, ?_, ?_⟩ <;>
      simp only [initParticle] <;>
      rw [List.getElem?_set_ne, List.getElem?_set_ne, List.getElem?_set_ne] <;>
      omega
  all_goals simp only [initParticle]
  · rw [List.getElem?_set_ne hij]
  · rw [List.getElem?_set_ne hij]
  · rw [List.getElem?_set_ne hij]
  · rw [List.getElem?_set_ne hij]
  all_goals simp

/-- Witness for `initParticle_index_isolation`: rebirth of particle 0 leaves
particle 1 untouched. -/
theorem initParticle_index_isolation_witness :
    ((1 : ℕ) ≠ 0) ∧
    ((∀ k < 3,
      (initParticle (fun _ => (1:ℝ)/2) samplePC 0 0).positions[3 * 1 + k]? =
        samplePC.positions[3 * 1 + k]? ∧
      (initParticle (fun _ => (1:ℝ)/2) samplePC 0 0).velocities[3 * 1 + k]? =
        samplePC.velocities[3 * 1 + k]? ∧
      (initParticle (fun _ => (1:ℝ)/2) samplePC 0 0).accelerations[3 * 1 + k]? =
        samplePC.accelerations[3 * 1 + k]? ∧
      (initParticle (fun _ => (1:ℝ)/2) samplePC 0 0).colors[3 * 1 + k]? =
        samplePC.colors[3 * 1 + k]?) ∧
    (initParticle (fun _ => (1:ℝ)/2) samplePC 0 0).sizes[(1:ℕ)]? = samplePC.sizes[(1:ℕ)]? ∧
    (initParticle (fun _ => (1:ℝ)/2) samplePC 0 0).lifeTimes[(1:ℕ)]? =
      samplePC.lifeTimes[(1:ℕ)]? ∧
    (initParticle (fun _ => (1:ℝ)/2) samplePC 0 0).startTimes[(1:ℕ)]? =
      samplePC.startTimes[(1:ℕ)]? ∧
    (initParticle (fun _ => (1:ℝ)/2) samplePC 0 0).opacities[(1:ℕ)]? =
      samplePC.opacities[(1:ℕ)]? ∧
    (initParticle (fun _ => (1:ℝ)/2) samplePC 0 0).positions.length =
      samplePC.positions.length ∧
    (initParticle (fun _ => (1:ℝ)/2) samplePC 0 0).velocities.length =
      samplePC.velocities.length ∧
    (initParticle (fun _ => (1:ℝ)/2) samplePC 0 0).accelerations.length =
      samplePC.accelerations.length ∧
    (initParticle (fun _ => (1:ℝ)/2) samplePC 0 0).colors.length = samplePC.colors.length ∧
    (initParticle (fun _ => (1:ℝ)/2) samplePC 0 0).sizes.length = samplePC.sizes.length ∧
    (initParticle (fun _ => (1:ℝ)/2) samplePC 0 0).lifeTimes.length =
      samplePC.lifeTimes.length ∧
    (initParticle (fun _ => (1:ℝ)/2) samplePC 0 0).startTimes.length =
      samplePC.startTimes.length ∧
    (initParticle (fun _ => (1:ℝ)/2) samplePC 0 0).opacities.length =
      samplePC.opacities.length) :=
  ⟨by decide, initParticle_index_isolation (fun _ => (1:ℝ)/2) samplePC 0 0 1 (by decide)⟩

theorem getD_set_ne (l : List ℝ) (m n : ℕ) (a d : ℝ) (h : m ≠ n) :
    (l.set m a).getD n d = l.getD n d := by
  rw [List.getD_eq_getElem?_getD, List.getD_eq_getElem?_getD, List.getElem?_set_ne h]

theorem set3_getD_ne (l : List ℝ) (a b c d : ℝ) (m n : ℕ)
    (h0 : m ≠ n) (h1 : m + 1 ≠ n) (h2 : m + 2 ≠ n) :
    (((l.set m a).set (m + 1) b).set (m + 2) c).getD n d = l.getD n d := by
  rw [getD_set_ne _ _ _ _ _ h2, getD_set_ne _ _ _ _ _ h1, getD_set_ne _ _ _ _ _ h0]

theorem getD_set_self (l : List ℝ) (n : ℕ) (a d : ℝ) (h : n < l.length) :
    (l.set n a).getD n d = a := by
  rw [List.getD_eq_getElem?_getD, List.getElem?_set_eq_of_lt a h, Option.getD_some]

theorem set3_getD_triple (l : List ℝ) (a b c d : ℝ) (m : ℕ) (h : m + 2 < l.length) :
    (((l.set m a).set (m + 1) b).set (m + 2) c).getD m d = a ∧
    (((l.set m a).set (m + 1) b).set (m + 2) c).getD (m + 1) d = b ∧
    (((l.set m a).set (m + 1) b).set (m + 2) c).getD (m + 2) d = c := by
  refine ⟨?_, ?_, ?_⟩
  · rw [getD_set_ne _ _ _ _ _ (by omega), getD_set_ne _ _ _ _ _ (by omega),
      getD_set_self _ _ _ _ (by omega)]
  · rw [getD_set_ne _ _ _ _ _ (by omega),
      getD_set_self _ _ _ _ (by simpa using (by omega : m + 1 < l.length))]
  · rw [getD_set_self _ _ _ _ (by simp; omega)]

theorem getD_mem {α : Type} (l : List α) (n : ℕ) (d : α) (h : n < l.length) :
    l.getD n d ∈ l := by
  rw [List.getD_eq_getElem l d h]
  exact List.getElem_mem h

theorem updAll_length {α : Type} (f : ℕ → α → α) (k : ℕ) (l : List α) :
    (updAll f k l).length = l.length := by
  induction l generalizing k with
  | nil => rfl
  | cons a t ih => simp [updAll, ih]

theorem updAll_getD {α : Type} (f : ℕ → α → α) (k : ℕ) (l : List α) (n : ℕ) (d : α)
    (h : n < l.length) : (updAll f k l).getD n d = f (k + n) (l.getD n d) := by
  induction l generalizing k n with
  | nil => simp at h
  | cons a t ih =>
    cases n with
    | zero => simp [updAll]
    | succ m =>
      simp only [updAll]
      have hm : m < t.length := by simpa using h
      rw [List.getD_cons_succ, List.getD_cons_succ, ih (k + 1) m hm]
      congr 1
      omega

theorem pcLoopBody_shared (env : PCEnv) (delta : ℝ) (j : ℕ) (pc : PC) :
    (pcLoopBody env delta j pc).time = pc.time ∧
    (pcLoopBody env delta j pc).emitters = pc.emitters ∧
    (pcLoopBody env delta j pc).opts = pc.opts ∧
    (pcLoopBody env delta j pc).positions.length = pc.positions.length ∧
    (pcLoopBody env delta j pc).startTimes.length = pc.startTimes.length ∧
    (pcLoopBody env delta j pc).lifeTimes.length = pc.lifeTimes.length := by
  simp only [pcLoopBody, initParticle]
  split
  · simp
  · split <;> simp

theorem pcLoopBody_other (env : PCEnv) (delta : ℝ) (j : ℕ) (pc : PC) (i : ℕ) (hij : j ≠ i) :
    (pcLoopBody env delta j pc).startTimes.getD i 0 = pc.startTimes.getD i 0 ∧
    (pcLoopBody env delta j pc).lifeTimes.getD i 0 = pc.lifeTimes.getD i 0 ∧
    (pcLoopBody env delta j pc).positions.getD (3 * i) 0 = pc.positions.getD (3 * i) 0 ∧
    (pcLoopBody env delta j pc).positions.getD (3 * i + 1) 0
      = pc.positions.getD (3 * i + 1) 0 ∧
    (pcLoopBody env delta j pc).positions.getD (3 * i + 2) 0
      = pc.positions.getD (3 * i + 2) 0 := by
  simp only [pcLoopBody, initParticle]
  split
  · refine ⟨getD_set_ne _ _ _ _ _ hij, getD_set_ne _ _ _ _ _ hij,
      set3_getD_ne _ _ _ _ _ _ _ (by omega) (by omega) (by omega),
      set3_getD_ne _ _ _ _ _ _ _ (by omega) (by omega) (by omega),
      set3_getD_ne _ _ _ _ _ _ _ (by omega) (by omega) (by omega)⟩
  · refine ⟨?_, ?_, set3_getD_ne _ _ _ _ _ _ _ (by omega) (by omega) (by omega),
      set3_getD_ne _ _ _ _ _ _ _ (by omega) (by omega) (by omega),
      set3_getD_ne _ _ _ _ _ _ _ (by omega) (by omega) (by omega)⟩ <;> rfl

theorem pcFold_other (env : PCEnv) (delta : ℝ) (l : List ℕ) (i : ℕ)
    (hl : ∀ j ∈ l, j ≠ i) (pc : PC) :
    (l.foldl (fun s j => pcLoopBody env delta j s) pc).startTimes.getD i 0
        = pc.startTimes.getD i 0 ∧
    (l.foldl (fun s j => pcLoopBody env delta j s) pc).lifeTimes.getD i 0
        = pc.lifeTimes.getD i 0 ∧
    (l.foldl (fun s j => pcLoopBody env delta j s) pc).positions.getD (3 * i) 0
        = pc.positions.getD (3 * i) 0 ∧
    (l.foldl (fun s j => pcLoopBody env delta j s) pc).positions.getD (3 * i + 1) 0
        = pc.positions.getD (3 * i + 1) 0 ∧
    (l.foldl (fun s j => pcLoopBody env delta j s) pc).positions.getD (3 * i + 2) 0
        = pc.positions.getD (3 * i + 2) 0 ∧
    (l.foldl (fun s j => pcLoopBody env delta j s) pc).time = pc.time ∧
    (l.foldl (fun s j => pcLoopBody env delta j s) pc).emitters = pc.emitters ∧
    (l.foldl (fun s j => pcLoopBody env delta j s) pc).opts = pc.opts ∧
    (l.foldl (fun s j => pcLoopBody env delta j s) pc).positions.length
        = pc.positions.length ∧
    (l.foldl (fun s j => pcLoopBody env delta j s) pc).startTimes.length
        = pc.startTimes.length ∧
    (l.foldl (fun s j => pcLoopBody env delta j s) pc).lifeTimes.length
        = pc.lifeTimes.length := by
  induction l generalizing pc with
  | nil => exact ⟨rfl, rfl, rfl, rfl, rfl, rfl, rfl, rfl, rfl, rfl, rfl⟩
  | cons a t ih =>
    have ha : a ≠ i := hl a (List.mem_cons_self a t)
    have ht : ∀ j ∈ t, j ≠ i := fun j hj => hl j (List.mem_cons_of_mem a hj)
    simp only [List.foldl_cons]
    obtain ⟨o1, o2, o3, o4, o5⟩ := pcLoopBody_other env delta a pc i ha
    obtain ⟨s1, s2, s3, s4, s5, s6⟩ := pcLoopBody_shared env delta a pc
    obtain ⟨i1, i2, i3, i4, i5, i6, i7, i8, i9, i10, i11⟩ := ih ht (pcLoopBody env delta a pc)
    exact ⟨i1.trans o1, i2.trans o2, i3.trans o3, i4.trans o4, i5.trans o5,
      i6.trans s1, i7.trans s2, i8.trans s3, i9.trans s4, i10.trans s5, i11.trans s6⟩

theorem norm3_spherical (r θ φ : ℝ) (hr : 0 ≤ r) :
    norm3 (r * Real.sin φ * Real.cos θ, r * Real.sin φ * Real.sin θ, r * Real.cos φ) = r := by
  unfold norm3 normSq3
  have harg : r * Real.sin φ * Real.cos θ * (r * Real.sin φ * Real.cos θ) +
      r * Real.sin φ * Real.sin θ * (r * Real.sin φ * Real.sin θ) +
      r * Real.cos φ * (r * Real.cos φ)
      = r ^ 2 * (Real.sin φ ^ 2 * (Real.sin θ ^ 2 + Real.cos θ ^ 2) + Real.cos φ ^ 2) := by
    ring
  rw [harg, Real.sin_sq_add_cos_sq, mul_one, Real.sin_sq_add_cos_sq, mul_one,
    Real.sqrt_sq hr]

theorem pcLoopBody_self_reinit (env : PCEnv) (delta : ℝ) (i : ℕ) (pc : PC)
    (hage : pc.time - pc.startTimes.getD i 0 ≥ pc.lifeTimes.getD i 0)
    (hplen : 3 * i + 2 < pc.positions.length)
    (hslen : i < pc.startTimes.length)
    (hem : pc.emitters ≠ [])
    (hrE0 : 0 ≤ env.rndEmitter i) (hrE1 : env.rndEmitter i < 1)
    (hr0 : 0 ≤ env.rndInit i 0) :
    (pcLoopBody env delta i pc).startTimes.getD i 0 = pc.time ∧
    dist3 ((pcLoopBody env delta i pc).posAt i)
        ((pc.emitters.getD
          (⌊env.rndEmitter i * (pc.emitters.length : ℝ)⌋).toNat dummyEmitter).position)
      = env.rndInit i 0 * 1.5 := by
  have hlen0 : 0 < pc.emitters.length := List.length_pos.2 hem
  have he0 : (0:ℤ) ≤ ⌊env.rndEmitter i * (pc.emitters.length : ℝ)⌋ :=
    Int.floor_nonneg.2 (mul_nonneg hrE0 (Nat.cast_nonneg _))
  have helt : ⌊env.rndEmitter i * (pc.emitters.length : ℝ)⌋ < (pc.emitters.length : ℤ) := by
    apply Int.floor_lt.2
    push_cast
    calc env.rndEmitter i * (pc.emitters.length : ℝ)
        < 1 * (pc.emitters.length : ℝ) := by
          apply mul_lt_mul_of_pos_right hrE1
          exact_mod_cast hlen0
      _ = (pc.emitters.length : ℝ) := one_mul _
  simp only [pcLoopBody]
  rw [if_pos hage]
  simp only [initParticle]
  rw [if_pos (show (0:ℤ) ≤ ⌊env.rndEmitter i * (pc.emitters.length : ℝ)⌋ ∧
    ⌊env.rndEmitter i * (pc.emitters.length : ℝ)⌋ < (pc.emitters.length : ℤ) from
    ⟨he0, helt⟩)]
  dsimp only
  constructor
  · rw [getD_set_self _ _ _ _ hslen]
    exact if_pos he0
  · have htrip := set3_getD_triple pc.positions
      ((pc.emitters.getD (⌊env.rndEmitter i * (pc.emitters.length : ℝ)⌋).toNat
          dummyEmitter).position.1 +
        env.rndInit i 0 * 1.5 * Real.sin (env.rndInit i 2 * (2 * Real.pi)) *
          Real.cos (env.rndInit i 1 * (2 * Real.pi)))
      ((pc.emitters.getD (⌊env.rndEmitter i * (pc.emitters.length : ℝ)⌋).toNat
          dummyEmitter).position.2.1 +
        env.rndInit i 0 * 1.5 * Real.sin (env.rndInit i 2 * (2 * Real.pi)) *
          Real.sin (env.rndInit i 1 * (2 * Real.pi)))
      ((pc.emitters.getD (⌊env.rndEmitter i * (pc.emitters.length : ℝ)⌋).toNat
          dummyEmitter).position.2.2 +
        env.rndInit i 0 * 1.5 * Real.cos (env.rndInit i 2 * (2 * Real.pi)))
      0 (3 * i) (by omega)
    obtain ⟨hx, hy, hz⟩ := htrip
    unfold PC.posAt
    dsimp only
    rw [hx, hy, hz]
    unfold dist3
    have hsub : ∀ (a b c o1 o2 o3 : ℝ),
        sub3 (a + o1, b + o2, c + o3) (a, b, c) = (o1, o2, o3) := by
      intro a b c o1 o2 o3
      unfold sub3
      exact Prod.ext (by ring) (Prod.ext (by ring) (by ring))
    rw [hsub]
    exact norm3_spherical _ _ _ (by positivity)

theorem pcLoopBody_self_alive (env : PCEnv) (delta : ℝ) (i : ℕ) (pc : PC)
    (hage : ¬ (pc.time - pc.startTimes.getD i 0 ≥ pc.lifeTimes.getD i 0)) :
    (pcLoopBody env delta i pc).startTimes.getD i 0 = pc.startTimes.getD i 0 ∧
    (pcLoopBody env delta i pc).lifeTimes.getD i 0 = pc.lifeTimes.getD i 0 := by
  simp only [pcLoopBody]
  rw [if_neg hage]
  exact ⟨rfl, rfl⟩

/-- C6: in emitter mode, a particle whose age (current time after the clock
advance, minus its start time) has reached its lifetime is reinitialized by
`ParticleCloud.update` from the randomly chosen emitter
`⌊rnd * emitters.length⌋`: its new start time is the current simulation time
`pc.time + delta`, and its new position lies within that emitter's radius of
the emitter's (freshly advanced) position; a particle whose age is strictly
less than its lifetime keeps its start time and lifetime. -/
theorem emitter_lifecycle (env : PCEnv) (delta : ℝ) (pc : PC) (i : ℕ)
    (hcount : i < pc.opts.count)
    (hplen : pc.positions.length = 3 * pc.opts.count)
    (hslen : pc.startTimes.length = pc.opts.count)
    (hem : pc.emitters ≠ [])
    (hrE0 : 0 ≤ env.rndEmitter i) (hrE1 : env.rndEmitter i < 1)
    (hr0 : 0 ≤ env.rndInit i 0) (hr1 : env.rndInit i 0 < 1)
    (hrad : ∀ em ∈ pc.emitters, 3 / 2 ≤ em.radius) :
    (pc.time + delta - pc.startTimes.getD i 0 ≥ pc.lifeTimes.getD i 0 →
      (pcUpdate env delta pc).startTimes.getD i 0 = pc.time + delta ∧
      dist3 ((pcUpdate env delta pc).posAt i)
          (((pcUpdate env delta pc).emitters.getD
            (⌊env.rndEmitter i * (pc.emitters.length : ℝ)⌋).toNat dummyEmitter).position)
        ≤ ((pcUpdate env delta pc).emitters.getD
            (⌊env.rndEmitter i * (pc.emitters.length : ℝ)⌋).toNat dummyEmitter).radius) ∧
    (pc.time + delta - pc.startTimes.getD i 0 < pc.lifeTimes.getD i 0 →
      (pcUpdate env delta pc).startTimes.getD i 0 = pc.startTimes.getD i 0 ∧
      (pcUpdate env delta pc).lifeTimes.getD i 0 = pc.lifeTimes.getD i 0) := by
  have hc : pc.opts.count = i + 1 + (pc.opts.count - (i + 1)) := by omega
  set pc1 : PC := { pc with
    time := pc.time + delta
    emitters := updAll (emitterStep delta) 0 pc.emitters } with hpc1
  have hupd : pcUpdate env delta pc
      = (List.range pc.opts.count).foldl (fun s j => pcLoopBody env delta j s) pc1 := rfl
  have hsplit : List.range pc.opts.count
      = (List.range i ++ [i]) ++
        (List.range (pc.opts.count - (i + 1))).map ((i + 1) + ·) := by
    conv_lhs => rw [hc]
    rw [List.range_add]
    congr 1
    simp [List.range_succ]
  rw [hupd, hsplit, List.foldl_append, List.foldl_append]
  simp only [List.foldl_cons, List.foldl_nil]
  obtain ⟨a1, a2, a3, a4, a5, a6, a7, a8, a9, a10, a11⟩ :=
    pcFold_other env delta (List.range i) i
      (fun j hj => by simp only [List.mem_range] at hj; omega) pc1
  set A := (List.range i).foldl (fun s j => pcLoopBody env delta j s) pc1 with hA
  obtain ⟨t1, t2, t3, t4, t5, t6, t7, t8, t9, t10, t11⟩ :=
    pcFold_other env delta ((List.range (pc.opts.count - (i + 1))).map ((i + 1) + ·)) i
      (fun j hj => by
        simp only [List.mem_map, List.mem_range] at hj
        obtain ⟨x, hx, rfl⟩ := hj
        omega) (pcLoopBody env delta i A)
  obtain ⟨b1, b2, b3, b4, b5, b6⟩ := pcLoopBody_shared env delta i A
  set B := pcLoopBody env delta i A with hB
  have hlenA : A.emitters.length = pc.emitters.length := by
    rw [a7]
    exact updAll_length _ _ _
  have he0 : (0:ℤ) ≤ ⌊env.rndEmitter i * (pc.emitters.length : ℝ)⌋ :=
    Int.floor_nonneg.2 (mul_nonneg hrE0 (Nat.cast_nonneg _))
  have helt : ⌊env.rndEmitter i * (pc.emitters.length : ℝ)⌋ < (pc.emitters.length : ℤ) := by
    apply Int.floor_lt.2
    push_cast
    calc env.rndEmitter i * (pc.emitters.length : ℝ)
        < 1 * (pc.emitters.length : ℝ) := by
          apply mul_lt_mul_of_pos_right hrE1
          exact_mod_cast List.length_pos.2 hem
      _ = (pc.emitters.length : ℝ) := one_mul _
  have he_lt : (⌊env.rndEmitter i * (pc.emitters.length : ℝ)⌋).toNat < pc.emitters.length := by
    omega
  refine ⟨?_, ?_⟩
  · intro hage
    have hageA : A.time - A.startTimes.getD i 0 ≥ A.lifeTimes.getD i 0 := by
      rw [a6, a1, a2]
      exact hage
    have hemA : A.emitters ≠ [] := by
      rw [a7]
      show updAll (emitterStep delta) 0 pc.emitters ≠ []
      intro hnil
      have hlen := updAll_length (emitterStep delta) 0 pc.emitters
      rw [hnil] at hlen
      exact hem (List.length_eq_zero.1 hlen.symm)
    have hpA : 3 * i + 2 < A.positions.length := by
      rw [a9]
      show 3 * i + 2 < pc.positions.length
      omega
    have hsA : i < A.startTimes.length := by
      rw [a10]
      show i < pc.startTimes.length
      omega
    obtain ⟨r1, r2⟩ := pcLoopBody_self_reinit env delta i A hageA hpA hsA hemA hrE0 hrE1 hr0
    rw [hlenA] at r2
    constructor
    · rw [t1, r1, a6]
    · have hpos : ((((List.range (pc.opts.count - (i + 1))).map ((i + 1) + ·)).foldl
          (fun s j => pcLoopBody env delta j s) B)).posAt i = B.posAt i := by
        unfold PC.posAt
        rw [t3, t4, t5]
      have hemEq : ((((List.range (pc.opts.count - (i + 1))).map ((i + 1) + ·)).foldl
          (fun s j => pcLoopBody env delta j s) B)).emitters = A.emitters := by
        rw [t7, b2]
      rw [hpos, hemEq, r2]
      have hrad2 : (A.emitters.getD
          (⌊env.rndEmitter i * (pc.emitters.length : ℝ)⌋).toNat dummyEmitter).radius
          = (pc.emitters.getD
            (⌊env.rndEmitter i * (pc.emitters.length : ℝ)⌋).toNat dummyEmitter).radius := by
        rw [a7]
        show ((updAll (emitterStep delta) 0 pc.emitters).getD
          (⌊env.rndEmitter i * (pc.emitters.length : ℝ)⌋).toNat dummyEmitter).radius = _
        rw [updAll_getD _ _ _ _ _ he_lt]
        rfl
      rw [hrad2]
      have hge : (3:ℝ)/2 ≤ (pc.emitters.getD
          (⌊env.rndEmitter i * (pc.emitters.length : ℝ)⌋).toNat dummyEmitter).radius :=
        hrad _ (getD_mem _ _ _ he_lt)
      nlinarith
  · intro halive
    have haliveA : ¬ (A.time - A.startTimes.getD i 0 ≥ A.lifeTimes.getD i 0) := by
      rw [a6, a1, a2]
      exact not_le.2 halive
    obtain ⟨v1, v2⟩ := pcLoopBody_self_alive env delta i A haliveA
    exact ⟨by rw [t1, v1, a1], by rw [t2, v2, a2]⟩

/-- Witness for `emitter_lifecycle` at the two-particle cloud, particle 0,
delta `0.016`. -/
theorem emitter_lifecycle_witness :
    ((0 : ℕ) < samplePC.opts.count ∧
     samplePC.positions.length = 3 * samplePC.opts.count ∧
     samplePC.startTimes.length = samplePC.opts.count ∧
     samplePC.emitters ≠ [] ∧
     (0 ≤ samplePCEnv.rndEmitter 0 ∧ samplePCEnv.rndEmitter 0 < 1) ∧
     (0 ≤ samplePCEnv.rndInit 0 0 ∧ samplePCEnv.rndInit 0 0 < 1) ∧
     (∀ em ∈ samplePC.emitters, 3 / 2 ≤ em.radius)) ∧
    ((samplePC.time + 0.016 - samplePC.startTimes.getD 0 0 ≥ samplePC.lifeTimes.getD 0 0 →
      (pcUpdate samplePCEnv 0.016 samplePC).startTimes.getD 0 0 = samplePC.time + 0.016 ∧
      dist3 ((pcUpdate samplePCEnv 0.016 samplePC).posAt 0)
          (((pcUpdate samplePCEnv 0.016 samplePC).emitters.getD
            (⌊samplePCEnv.rndEmitter 0 * (samplePC.emitters.length : ℝ)⌋).toNat
            dummyEmitter).position)
        ≤ ((pcUpdate samplePCEnv 0.016 samplePC).emitters.getD
            (⌊samplePCEnv.rndEmitter 0 * (samplePC.emitters.length : ℝ)⌋).toNat
            dummyEmitter).radius) ∧
    (samplePC.time + 0.016 - samplePC.startTimes.getD 0 0 < samplePC.lifeTimes.getD 0 0 →
      (pcUpdate samplePCEnv 0.016 samplePC).startTimes.getD 0 0
        = samplePC.startTimes.getD 0 0 ∧
      (pcUpdate samplePCEnv 0.016 samplePC).lifeTimes.getD 0 0
        = samplePC.lifeTimes.getD 0 0)) := by
  have hrade : ∀ em ∈ samplePC.emitters, (3:ℝ) / 2 ≤ em.radius := by
    intro em hm
    simp only [samplePC, List.mem_singleton] at hm
    subst hm
    norm_num [sampleEmitter]
  refine ⟨⟨by decide, rfl, rfl, by simp [samplePC], ⟨by norm_num [samplePCEnv],
    by norm_num [samplePCEnv]⟩, ⟨by norm_num [samplePCEnv], by norm_num [samplePCEnv]⟩,
    hrade⟩, ?_⟩
  exact emitter_lifecycle samplePCEnv 0.016 samplePC 0 (by decide) rfl rfl
    (by simp [samplePC]) (by norm_num [samplePCEnv]) (by norm_num [samplePCEnv])
    (by norm_num [samplePCEnv]) (by norm_num [samplePCEnv]) hrade

